import Mathlib

/-!
# Walter BotCortex: the actuator controller (`code/BotCortex/Controller.cpp`)

A shallow embedding of `Controller` and a verification of its startup
sequence, its enable/select operations and its scheduling loop.

Conventions of the embedding

* A pointer `&actuators[k]`, `&servos[k]`, `&steppers[k]`, `&encoders[k]` is the
  index `k`; `NULL` is `none`.  Dereferencing `NULL` has no result: the
  functions that dereference the result of `getActuator` return `Option`.
* The fixed arrays are index maps `Nat → _`.  Every use of an index by
  `setup()` is recorded in the trace together with the index, so that staying
  below the capacity is a property of the trace and not of the carrier.
* Calls into collaborators whose code lives elsewhere (actuators, drives,
  encoders, power rail) are recorded, in program order, as a `List Call`.
  Values they return are read from an environment record (`SetupEnv`,
  `LoopEnv`).  Logging, pin modes, bus bring-up, the watchdog and `delay()`
  (with the stepper passes its yield hook triggers) are not traced.
* Angles are `float` in the source.  `setup()` and the resynchronisation pass
  only move angles around.  The knob arithmetic `(adc-512)/512*135` and the
  difference of two such values are exact in binary32 for every `int16_t`
  sample (all numerators stay below `2^24`, the denominator is `2^9`), so the
  carrier `ℚ` computes the same values.
-/

namespace Walter

/-- Capacities and rates that `Controller.cpp` takes from headers: they are
parameters of the embedding. -/
structure Constants where
  MAX_ACTUATORS : Nat
  MAX_SERVOS : Nat
  MAX_STEPPERS : Nat
  MAX_ENCODERS : Nat
  MOTOR_KNOB_SAMPLE_RATE : Nat

/-- The value of `ActuatorConfig::actuatorType` as `setup()` switches on it:
the two handled cases and anything else the persisted memory may hold. -/
inductive ActuatorType where
  | SERVO_TYPE
  | STEPPER_ENCODER_TYPE
  | unknown (raw : Nat)
deriving DecidableEq

/-- The error kinds `Controller.cpp` passes to `setError`. -/
inductive ErrorCode where
  | MISCONFIG_TOO_MANY_SERVOS
  | MISCONFIG_SERVO_WITH_STEPPER
  | MISCONFIG_SERVO_WITH_ENCODER
  | MISCONFIG_SERVO
  | MISCONFIG_TOO_MANY_ENCODERS
  | MISCONFIG_TOO_MANY_STEPPERS
  | MISCONFIG_NO_STEPPERS
  | MISCONFIG_NO_ENCODERS
  | MISCONFIG_STEPPER
  | ENCODER_CHECK_FAILED
  | MISCONFIG_ENCODER_STEPPER_MISMATCH
  | ENCODER_CALL_FAILED
  | MISCONFIG_ENCODER_WITH_NO_STEPPER
deriving DecidableEq

/-- The messages `Controller.cpp` passes to `logFatal`. -/
inductive FatalMsg where
  | tooManyServos
  | servoWithStepper
  | servoWithEncoder
  | noServo
  | tooManyEncoders
  | tooManySteppers
  | noStepper
  | noEncoder
  | stepperWithServo
  | unknownActuatorType
  | encoderAndStepperDifferent
  | encoderNotOk
  | encoderHasNoStepper
  | wrongStepperIdentified
deriving DecidableEq

/-- The part of `memory.persMem.armConfig[i]` that the controller reads: the
declared type and the identifiers in the stepper and encoder sub-configurations
(`config.stepperArm.stepper.id`, `config.stepperArm.encoder.id`). -/
structure ActuatorConfig where
  actuatorType : ActuatorType
  stepperId : Nat
  encoderId : Nat

/-- An `Actuator`: the backends attached to it, as indices into the
controller's `servos`, `steppers` and `encoders` arrays. -/
structure Actuator where
  servoDrive : Option Nat
  stepperDrive : Option Nat
  encoder : Option Nat
deriving DecidableEq

/-- A `RotaryEncoder` as far as the controller observes it: the identifier of
the configuration it was set up with, `isOk()` and `getAngle()`. -/
structure RotaryEncoder where
  id : Nat
  ok : Bool
  angle : ℚ

/-- A `GearedStepperDrive` as far as the controller observes it: the
identifier of the configuration it was set up with. -/
structure GearedStepperDrive where
  id : Nat

/-- The global `adjustWhat`: the two named modes and any other value
`adjustMotor(int)` may store. -/
inductive AdjustMode where
  | ADJUST_MOTOR_MANUALLY
  | ADJUST_MOTOR_BY_KNOB
  | other (raw : Nat)
deriving DecidableEq

/-- The calls the controller makes into its collaborators. -/
inductive Call where
  | actuatorEnable (actuator : Nat)
  | actuatorDisable (actuator : Nat)
  | actuatorSetAngle (actuator : Nat) (angle : ℚ) (duration : Nat)
  | actuatorChangeAngle (actuator : Nat) (delta : ℚ) (duration : Nat)
  | switchServoPowerSupply (powerOn : Bool)
  | servoSetup (index : Nat) (slot : Nat)
  | encoderSetup (index : Nat) (slot : Nat)
  | stepperSetup (index : Nat) (slot : Nat)
  | checkEncoderVariance (index : Nat)
  | setCurrentAngle (stepper : Nat) (angle : ℚ)
  | setMeasuredAngle (stepper : Nat) (angle : ℚ) (time : Nat)
  | stepperSetAngle (stepper : Nat) (angle : ℚ) (duration : Nat)
  | getNewAngleFromSensor (index : Nat)
  | stepperLoop (index : Nat)
  | servoLoop (index : Nat) (now : Nat)
  | logFatal (msg : FatalMsg)
deriving DecidableEq

/-- The state of the `Controller` object together with the globals its code
reads and writes: the error accumulator, `adjustWhat` and the function-local
static `lastAngle` of `loop`. -/
structure Controller where
  currentMotor : Option Nat
  numberOfActuators : Nat
  numberOfEncoders : Nat
  numberOfSteppers : Nat
  numberOfServos : Nat
  setuped : Bool
  enabled : Bool
  steppersSequence : Nat → Nat
  actuators : Nat → Actuator
  encoders : Nat → RotaryEncoder
  steppers : Nat → GearedStepperDrive
  errors : List ErrorCode
  adjustWhat : AdjustMode
  lastAngle : ℚ

/-- What `setup()` reads from the hardware: for the encoder at index `i`,
`isOk()` and `getAngle()` once `checkEncoderVariance()` has run, and the value
of `millis()` when actuator slot `i` is seeded. -/
structure SetupEnv where
  encoderOk : Nat → Bool
  encoderAngle : Nat → ℚ
  millis : Nat → Nat

/-- The encoder at the end of a `getNewAngleFromSensor()` call: the returned
flag, and `isOk()` and `getAngle()` afterwards. -/
structure SensorRead where
  commOk : Bool
  ok : Bool
  angle : ℚ

/-- What one `loop(now)` reads from the outside: the two timers, the analog
sample, and, for the resynchronisation iteration of encoder index `e`, the
results of `isDue(now)`, `getCurrentAngle()` and `getNewAngleFromSensor()`. -/
structure LoopEnv where
  now : Nat
  knobDue : Bool
  adcValue : Int
  servoDue : Bool
  stepperDue : Nat → Bool
  stepperAngle : Nat → ℚ
  sensor : Nat → SensorRead

/-- Modelled from the spec: `Actuator::Actuator()` is not part of the sources;
an actuator "composes either (StepperDrive + Encoder) or (ServoDrive)", and
before it is wired it has no backend. -/
def Actuator.unwired : Actuator :=
  { servoDrive := none, stepperDrive := none, encoder := none }

/-- Modelled from the spec: `Actuator::setup(config, servo)` is not part of the
sources; it attaches the servo drive, exclusively. -/
def Actuator.setupServo (servo : Nat) : Actuator :=
  { servoDrive := some servo, stepperDrive := none, encoder := none }

/-- Modelled from the spec: `Actuator::setup(config, stepper, encoder)` is not
part of the sources; it attaches the stepper drive and the encoder,
exclusively. -/
def Actuator.setupStepper (stepper encoder : Nat) : Actuator :=
  { servoDrive := none, stepperDrive := some stepper, encoder := some encoder }

/-- Modelled from the spec: the capability query `hasServo()` of `Actuator` is not
part of the sources; it tells whether a servo drive is attached. -/
def Actuator.hasServo (a : Actuator) : Bool := a.servoDrive.isSome

/-- Modelled from the spec: the capability query `hasStepper()` of `Actuator` is
not part of the sources; it tells whether a stepper drive is attached. -/
def Actuator.hasStepper (a : Actuator) : Bool := a.stepperDrive.isSome

/-- Modelled from the spec: the capability query `hasEncoder()` of `Actuator` is
not part of the sources; it tells whether an encoder is attached. -/
def Actuator.hasEncoder (a : Actuator) : Bool := a.encoder.isSome

/-- The controller as `Controller::Controller()` leaves the global object:
members the constructor does not assign are zero (static storage), and
`steppersSequence[i] = i` on the cells of the array. -/
def Controller.fresh : Controller :=
  { currentMotor := none
    numberOfActuators := 0
    numberOfEncoders := 0
    numberOfSteppers := 0
    numberOfServos := 0
    setuped := false
    enabled := false
    steppersSequence := fun i => i
    actuators := fun _ => Actuator.unwired
    encoders := fun _ => { id := 0, ok := false, angle := 0 }
    steppers := fun _ => { id := 0 }
    errors := []
    adjustWhat := AdjustMode.ADJUST_MOTOR_MANUALLY
    lastAngle := 0 }

/-- Modelled from the spec: `setError` is not part of the sources; the error
accumulator is "monotonic until explicit reset" and "includes" every kind that
was set: the kinds are kept in the order of the `setError` calls. -/
def setError (c : Controller) (e : ErrorCode) : Controller :=
  { c with errors := c.errors ++ [e] }

/-- Modelled from the spec: `resetError` is not part of the sources; it is the
explicit reset of the error accumulator. -/
def resetError (c : Controller) : Controller :=
  { c with errors := [] }

/-- Modelled from the spec: `isError` is not part of the sources; it is the
"is error set" query on the accumulator. -/
def isError (c : Controller) : Bool := !c.errors.isEmpty

/-- Modelled from the spec: `isSetup()` is declared in `Controller.h`, which is
not part of the sources.  The constructor documents `setuped` as the "flag to
indicate a finished setup (used in stepperloop())" and `stepperLoop` tests
`isSetup()`: the accessor reads that flag. -/
def isSetup (c : Controller) : Bool := c.setuped

/-- The loop `for (i = 0; i < n; i++) body(i)` over a state, collecting the calls. -/
def forLoop {σ : Type} (body : Nat → σ → σ × List Call) : Nat → σ → σ × List Call
  | 0, s => (s, [])
  | n + 1, s =>
    let r := forLoop body n s
    let r2 := body n r.1
    (r2.1, r.2 ++ r2.2)

/-- The loop `for (i = 0; i < n; i++) body(i)` where the body may dereference `NULL`. -/
def forLoopM {σ : Type} (body : Nat → σ → Option (σ × List Call)) :
    Nat → σ → Option (σ × List Call)
  | 0, s => some (s, [])
  | n + 1, s =>
    match forLoopM body n s with
    | none => none
    | some r =>
      match body n r.1 with
      | none => none
      | some r2 => some (r2.1, r.2 ++ r2.2)

/-- The method `Controller::getActuator`: the slot's address when the number is below
`numberOfActuators`, `NULL` otherwise. -/
def getActuator (c : Controller) (actuatorNumber : Nat) : Option Nat :=
  if 0 ≤ actuatorNumber ∧ actuatorNumber < c.numberOfActuators then some actuatorNumber
  else none

/-- The method `Controller::getCurrentActuator`. -/
def getCurrentActuator (c : Controller) : Option Nat := c.currentMotor

/-- The method `Controller::enable`. -/
def enable (c : Controller) : Option (Controller × List Call) :=
  if isSetup c then
    match forLoopM (fun i s =>
        match getActuator s i with
        | some a => some (s, [Call.actuatorEnable a])
        | none => none) c.numberOfActuators c with
    | some r => some ({ r.1 with enabled := true }, r.2)
    | none => none
  else some (c, [])

/-- The method `Controller::disable`. -/
def disable (c : Controller) : Option (Controller × List Call) :=
  if isSetup c then
    match forLoopM (fun i s =>
        match getActuator s i with
        | some a => some (s, [Call.actuatorDisable a])
        | none => none) c.numberOfActuators c with
    | some r => some ({ r.1 with enabled := false }, r.2)
    | none => none
  else some (c, [])

/-- The method `Controller::selectActuator`.  The range test is the source's
`(no>=0) || (no<MAX_ACTUATORS)`. -/
def selectActuator (K : Constants) (c : Controller) (no : Nat) : Controller × List Call :=
  let r : Controller × List Call :=
    match c.currentMotor with
    | some m => ({ c with currentMotor := none }, [Call.actuatorDisable m])
    | none => (c, [])
  if 0 ≤ no ∨ no < K.MAX_ACTUATORS then
    let c2 : Controller := { r.1 with currentMotor := getActuator r.1 no }
    match c2.currentMotor with
    | some m => (c2, r.2 ++ [Call.actuatorEnable m])
    | none => (c2, r.2)
  else r

/-- The pattern `if (cond) { setError(e); logFatal(msg); }` of `setup()`.
`logFatal` is not part of the sources; it is diagnostic text output and is
recorded as a call that leaves the error accumulator alone, which is why the
source pairs it with `setError`. -/
def fatalIf (cond : Bool) (e : ErrorCode) (msg : FatalMsg) (r : Controller × List Call) :
    Controller × List Call :=
  if cond then (setError r.1 e, r.2 ++ [Call.logFatal msg]) else r

/-- One iteration of the first loop of `setup()`: the slot `n` is wired
according to its declared type.  `numberOfActuators` is the loop variable. -/
def setupActuator (K : Constants) (cfg : Nat → ActuatorConfig) (n : Nat) (c0 : Controller) :
    Controller × List Call :=
  let c : Controller := { c0 with numberOfActuators := n }
  match (cfg n).actuatorType with
  | ActuatorType.SERVO_TYPE =>
    let r1 := fatalIf (decide (K.MAX_SERVOS ≤ c.numberOfServos))
      ErrorCode.MISCONFIG_TOO_MANY_SERVOS FatalMsg.tooManyServos (c, [])
    let idx := r1.1.numberOfServos
    let c2 : Controller :=
      { r1.1 with
        actuators := Function.update r1.1.actuators n (Actuator.setupServo idx)
        numberOfServos := idx + 1 }
    let r2 : Controller × List Call := (c2, r1.2 ++ [Call.servoSetup idx n])
    let thisActuator := c2.actuators n
    let r3 := fatalIf thisActuator.hasStepper
      ErrorCode.MISCONFIG_SERVO_WITH_STEPPER FatalMsg.servoWithStepper r2
    let r4 := fatalIf thisActuator.hasEncoder
      ErrorCode.MISCONFIG_SERVO_WITH_ENCODER FatalMsg.servoWithEncoder r3
    fatalIf (!thisActuator.hasServo) ErrorCode.MISCONFIG_SERVO FatalMsg.noServo r4
  | ActuatorType.STEPPER_ENCODER_TYPE =>
    let r1 := fatalIf (decide (K.MAX_ENCODERS ≤ c.numberOfEncoders))
      ErrorCode.MISCONFIG_TOO_MANY_ENCODERS FatalMsg.tooManyEncoders (c, [])
    let r2 := fatalIf (decide (K.MAX_STEPPERS ≤ c.numberOfSteppers))
      ErrorCode.MISCONFIG_TOO_MANY_STEPPERS FatalMsg.tooManySteppers r1
    let e := r2.1.numberOfEncoders
    let s := r2.1.numberOfSteppers
    let c3 : Controller :=
      { r2.1 with
        encoders := Function.update r2.1.encoders e
          { r2.1.encoders e with id := (cfg n).encoderId }
        steppers := Function.update r2.1.steppers s { id := (cfg n).stepperId }
        actuators := Function.update r2.1.actuators n (Actuator.setupStepper s e) }
    let r3 : Controller × List Call :=
      (c3, r2.2 ++ [Call.encoderSetup e n, Call.stepperSetup s n])
    let thisActuator := c3.actuators n
    let r4 := fatalIf (!thisActuator.hasStepper)
      ErrorCode.MISCONFIG_NO_STEPPERS FatalMsg.noStepper r3
    let r5 := fatalIf (!thisActuator.hasEncoder)
      ErrorCode.MISCONFIG_NO_ENCODERS FatalMsg.noEncoder r4
    let r6 := fatalIf thisActuator.hasServo
      ErrorCode.MISCONFIG_STEPPER FatalMsg.stepperWithServo r5
    ({ r6.1 with
        numberOfEncoders := r6.1.numberOfEncoders + 1
        numberOfSteppers := r6.1.numberOfSteppers + 1 }, r6.2)
  | ActuatorType.unknown _ => (c, [Call.logFatal FatalMsg.unknownActuatorType])

/-- One iteration of the second loop of `setup()`: `checkEncoder(i)` and the
recording of a failed check. -/
def setupCheckEncoder (env : SetupEnv) (i : Nat) (c : Controller) : Controller × List Call :=
  let c1 : Controller :=
    { c with
      encoders := Function.update c.encoders i
        { c.encoders i with ok := env.encoderOk i, angle := env.encoderAngle i } }
  let encoderCheckOk := (c1.encoders i).ok
  if !encoderCheckOk then (setError c1 ErrorCode.ENCODER_CHECK_FAILED, [Call.checkEncoderVariance i])
  else (c1, [Call.checkEncoderVariance i])

/-- One iteration of the third loop of `setup()`: an actuator with an encoder
and a stepper of the same identifier is seeded from the encoder when the
encoder is ok. -/
def setupSeed (env : SetupEnv) (i : Nat) (c : Controller) : Option (Controller × List Call) :=
  match getActuator c i with
  | none => none
  | some a =>
    match (c.actuators a).encoder with
    | some e =>
      match (c.actuators a).stepperDrive with
      | some s =>
        if (c.encoders e).id ≠ (c.steppers s).id then
          some (setError c ErrorCode.MISCONFIG_ENCODER_STEPPER_MISMATCH,
            [Call.logFatal FatalMsg.encoderAndStepperDifferent])
        else if (c.encoders e).ok then
          let angle := (c.encoders e).angle
          some (c, [Call.setCurrentAngle s angle, Call.setMeasuredAngle s angle (env.millis i),
            Call.stepperSetAngle s angle 1])
        else
          some (setError c ErrorCode.ENCODER_CALL_FAILED, [Call.logFatal FatalMsg.encoderNotOk])
      | none =>
        some (setError c ErrorCode.MISCONFIG_ENCODER_WITH_NO_STEPPER,
          [Call.logFatal FatalMsg.encoderHasNoStepper])
    | none => some (c, [])

/-- The first loop of `setup()`, `for (numberOfActuators = 0; numberOfActuators <
MAX_ACTUATORS; numberOfActuators++)`: every slot is wired, and the loop variable
is left at `MAX_ACTUATORS`. -/
def setupWire (K : Constants) (cfg : Nat → ActuatorConfig) (c : Controller) :
    Controller × List Call :=
  let r := forLoop (setupActuator K cfg) K.MAX_ACTUATORS c
  ({ r.1 with numberOfActuators := K.MAX_ACTUATORS }, r.2)

/-- The second loop of `setup()`: the variance check of every encoder. -/
def setupCheck (env : SetupEnv) (c : Controller) : Controller × List Call :=
  forLoop (setupCheckEncoder env) c.numberOfEncoders c

/-- The method `Controller::setup`: the returned flag, the controller and the calls. -/
def setup (K : Constants) (cfg : Nat → ActuatorConfig) (env : SetupEnv) (c : Controller) :
    Option (Bool × Controller × List Call) :=
  match disable (resetError c) with
  | none => none
  | some r0 =>
    let c1 : Controller :=
      { r0.1 with numberOfSteppers := 0, numberOfEncoders := 0, numberOfServos := 0 }
    let r1 := setupWire K cfg c1
    let r2 := setupCheck env r1.1
    match forLoopM (setupSeed env) r2.1.numberOfActuators r2.1 with
    | none => none
    | some r3 =>
      let t := r0.2 ++ [Call.switchServoPowerSupply true] ++ r1.2 ++ r2.2 ++ r3.2
      let t2 := if isError r3.1 then t ++ [Call.switchServoPowerSupply false] else t
      let c4 : Controller := { r3.1 with setuped := true }
      some (!isError c4, c4, t2)

/-- The method `Controller::stepperLoop`: the step-emission pass. -/
def stepperLoop (c : Controller) : List Call :=
  if isSetup c then
    (List.range c.numberOfSteppers).map (fun i => Call.stepperLoop (c.steppersSequence i))
  else []

/-- The knob mapping of `loop`: `(float(adcValue-512)/512.0) * (270.0 / 2.0)`. -/
def knobAngle (adcValue : Int) : ℚ :=
  (((adcValue - 512 : Int) : ℚ) / 512) * (270 / 2)

/-- The test `hasServo() || (hasEncoder() && getEncoder().isOk())` of `loop`
on the actuator at slot `m`. -/
def knobAbsolute (c : Controller) (m : Nat) : Bool :=
  (c.actuators m).hasServo ||
    (match (c.actuators m).encoder with
     | some e => (c.encoders e).ok
     | none => false)

/-- The knob section of `loop`. -/
def knobPass (K : Constants) (env : LoopEnv) (c : Controller) : Controller × List Call :=
  match c.currentMotor with
  | none => (c, [])
  | some m =>
    if c.adjustWhat = AdjustMode.ADJUST_MOTOR_BY_KNOB then
      if env.knobDue then
        let angle := knobAngle env.adcValue
        let t : List Call :=
          if |env.adcValue - 512| < 500 then
            if knobAbsolute c m then
              [Call.actuatorSetAngle m angle K.MOTOR_KNOB_SAMPLE_RATE]
            else
              [Call.actuatorChangeAngle m (angle - c.lastAngle) K.MOTOR_KNOB_SAMPLE_RATE]
          else []
        ({ c with lastAngle := angle }, t)
      else (c, [])
    else (c, [])

/-- The servo section of `loop`. -/
def servoPass (K : Constants) (env : LoopEnv) (c : Controller) : List Call :=
  if env.servoDue then
    (forLoop (fun i (s : Controller) => (s, Call.servoLoop i env.now :: stepperLoop s))
      K.MAX_SERVOS c).2
  else []

/-- One iteration of the encoder resynchronisation loop of `loop`. -/
def encoderStep (env : LoopEnv) (encoderIdx : Nat) (c : Controller) :
    Option (Controller × List Call) :=
  let t0 := stepperLoop c
  let actuatorID := (c.encoders encoderIdx).id
  match getActuator c actuatorID with
  | none => none
  | some a =>
    match (c.actuators a).stepperDrive with
    | some s =>
      if env.stepperDue encoderIdx then
        let t1 : List Call :=
          if (c.steppers s).id ≠ actuatorID then [Call.logFatal FatalMsg.wrongStepperIdentified]
          else []
        let currentAngle := env.stepperAngle encoderIdx
        if (c.encoders encoderIdx).ok then
          let rd := env.sensor encoderIdx
          let c1 : Controller :=
            { c with
              encoders := Function.update c.encoders encoderIdx
                { c.encoders encoderIdx with ok := rd.ok, angle := rd.angle } }
          let measured := if rd.commOk then (c1.encoders encoderIdx).angle else currentAngle
          some (c1, t0 ++ t1 ++ [Call.getNewAngleFromSensor encoderIdx,
            Call.setMeasuredAngle s measured env.now] ++ stepperLoop c1)
        else
          some (c, t0 ++ t1 ++ [Call.setMeasuredAngle s currentAngle env.now] ++ stepperLoop c)
      else some (c, t0)
    | none => some (c, t0)

/-- The method `Controller::loop`. -/
def loop (K : Constants) (env : LoopEnv) (c : Controller) : Option (Controller × List Call) :=
  let t0 := stepperLoop c
  let r1 := knobPass K env c
  let t2 := servoPass K env r1.1
  match forLoopM (encoderStep env) r1.1.numberOfEncoders r1.1 with
  | none => none
  | some r3 => some (r3.1, t0 ++ r1.2 ++ t2 ++ r3.2)

/-! ## Quantities and predicates used to state the properties -/

/-- The value of `numberOfSteppers` (and of `numberOfEncoders`) when the first
loop of `setup()` reaches slot `n`: the number of `STEPPER_ENCODER_TYPE` slots
below `n`. -/
def steppersBefore (cfg : Nat → ActuatorConfig) : Nat → Nat
  | 0 => 0
  | n + 1 =>
    if (cfg n).actuatorType = ActuatorType.STEPPER_ENCODER_TYPE then steppersBefore cfg n + 1
    else steppersBefore cfg n

/-- The value of `numberOfServos` when the first loop of `setup()` reaches slot
`n`: the number of `SERVO_TYPE` slots below `n`. -/
def servosBefore (cfg : Nat → ActuatorConfig) : Nat → Nat
  | 0 => 0
  | n + 1 =>
    if (cfg n).actuatorType = ActuatorType.SERVO_TYPE then servosBefore cfg n + 1
    else servosBefore cfg n

/-- The calls by which `setup()` seeds a stepper from its encoder. -/
def Call.isSeed : Call → Bool
  | Call.setCurrentAngle _ _ => true
  | Call.setMeasuredAngle _ _ _ => true
  | Call.stepperSetAngle _ _ _ => true
  | _ => false

/-- The stepper a seeding call addresses. -/
def Call.seedTarget : Call → Option Nat
  | Call.setCurrentAngle s _ => some s
  | Call.setMeasuredAngle s _ _ => some s
  | Call.stepperSetAngle s _ _ => some s
  | _ => none



/-- The method `Controller::adjustMotor`. -/
def adjustMotor (c : Controller) (adjustmentType : AdjustMode) : Controller :=
  { c with adjustWhat := adjustmentType }

/-- The calls by which the knob section of `loop` moves the selected actuator. -/
def Call.isKnob : Call → Bool
  | Call.actuatorSetAngle _ _ _ => true
  | Call.actuatorChangeAngle _ _ _ => true
  | _ => false

/-- Every wired stepper shares its index with the encoder wired next to it:
`setup()` hands out both indices from counters it advances together. -/
def Paired (c : Controller) : Prop :=
  ∀ j s e, (c.actuators j).stepperDrive = some s → (c.actuators j).encoder = some e → s = e

/-- Every configured encoder carries the identifier of a registry slot, so
that the lookup of its actuator in `loop` does not return `NULL`. -/
def EncodersInRange (c : Controller) : Prop :=
  ∀ e, e < c.numberOfEncoders → (c.encoders e).id < c.numberOfActuators

/-- Two controller states that differ at most in the sensor state of the
encoders (`isOk()`, `getAngle()`) and in the knob's `lastAngle`. -/
def SameWiring (a b : Controller) : Prop :=
  a.currentMotor = b.currentMotor ∧ a.numberOfActuators = b.numberOfActuators ∧
  a.numberOfEncoders = b.numberOfEncoders ∧ a.numberOfSteppers = b.numberOfSteppers ∧
  a.setuped = b.setuped ∧ a.actuators = b.actuators ∧ a.steppers = b.steppers ∧
  a.adjustWhat = b.adjustWhat ∧ (∀ e, (a.encoders e).id = (b.encoders e).id)

/-! ## Concrete configurations, hardware and ticks -/

/-- A choice of the constants for the concrete runs: seven actuator slots,
room for two servos, five steppers and five encoders. -/
def sampleConstants : Constants :=
  { MAX_ACTUATORS := 7, MAX_SERVOS := 2, MAX_STEPPERS := 5, MAX_ENCODERS := 5,
    MOTOR_KNOB_SAMPLE_RATE := 100 }

/-- A persisted configuration within capacity: slots 0 to 4 are steppers with
encoders whose identifiers are the slot number, slots 5 and 6 are servos. -/
def armConfig : Nat → ActuatorConfig := fun i =>
  if i < 5 then
    { actuatorType := ActuatorType.STEPPER_ENCODER_TYPE, stepperId := i, encoderId := i }
  else { actuatorType := ActuatorType.SERVO_TYPE, stepperId := 0, encoderId := 0 }

/-- The configuration `armConfig` with the encoder of slot 1 carrying the
identifier 2 instead of 1. -/
def mismatchConfig : Nat → ActuatorConfig := fun i =>
  if i = 1 then
    { actuatorType := ActuatorType.STEPPER_ENCODER_TYPE, stepperId := 1, encoderId := 2 }
  else armConfig i

/-- The configuration `armConfig` with slot 6 declaring the type value 2,
which is neither of the two handled types. -/
def unknownTypeConfig : Nat → ActuatorConfig := fun i =>
  if i = 6 then { actuatorType := ActuatorType.unknown 2, stepperId := 0, encoderId := 0 }
  else armConfig i

/-- A configuration with three servo slots (4, 5 and 6) after four steppers
with encoders. -/
def threeServoConfig : Nat → ActuatorConfig := fun i =>
  if i < 4 then
    { actuatorType := ActuatorType.STEPPER_ENCODER_TYPE, stepperId := i, encoderId := i }
  else { actuatorType := ActuatorType.SERVO_TYPE, stepperId := 0, encoderId := 0 }

/-- Hardware on which every encoder passes its variance check; encoder `i`
reads the angle `10 * i`. -/
def healthyEnv : SetupEnv :=
  { encoderOk := fun _ => true, encoderAngle := fun i => 10 * (i : ℚ), millis := fun i => 1000 + i }

/-- Hardware on which encoder 0 fails its variance check and every other
encoder passes. -/
def encoderZeroBadEnv : SetupEnv :=
  { encoderOk := fun i => decide (i ≠ 0), encoderAngle := fun i => 10 * (i : ℚ),
    millis := fun i => 1000 + i }

/-- The controller after `setup()` on the given configuration and hardware,
started from the constructed controller. -/
def afterSetup (cfg : Nat → ActuatorConfig) (env : SetupEnv) : Controller :=
  match setup sampleConstants cfg env Controller.fresh with
  | some r => r.2.1
  | none => Controller.fresh

/-- The controller after a successful `setup()`, `selectActuator(0)` and
`adjustMotor(ADJUST_MOTOR_BY_KNOB)`. -/
def knobController : Controller :=
  adjustMotor (selectActuator sampleConstants (afterSetup armConfig healthyEnv) 0).1
    AdjustMode.ADJUST_MOTOR_BY_KNOB

/-- One tick at time `now` in which the knob timer is due and the sample is
`adc`; the servo timer is not due, every stepper is due, every sensor read
succeeds and reports `angle`. -/
def knobTick (now : Nat) (adc : Int) (angle : ℚ) : LoopEnv :=
  { now := now, knobDue := true, adcValue := adc, servoDue := false,
    stepperDue := fun _ => true, stepperAngle := fun _ => 0,
    sensor := fun _ => { commOk := true, ok := true, angle := angle } }

/-- One tick at time `now` in which the servo timer is due and nothing else. -/
def servoTick (now : Nat) : LoopEnv :=
  { now := now, knobDue := false, adcValue := 512, servoDue := true,
    stepperDue := fun _ => false, stepperAngle := fun _ => 0,
    sensor := fun _ => { commOk := true, ok := true, angle := 0 } }

/-- One tick at time `now` in which every stepper is due with the estimate
`estimate`, and every sensor read fails. -/
def failedReadTick (now : Nat) (estimate : ℚ) : LoopEnv :=
  { now := now, knobDue := false, adcValue := 512, servoDue := false,
    stepperDue := fun _ => true, stepperAngle := fun _ => estimate,
    sensor := fun _ => { commOk := false, ok := true, angle := 0 } }

/-! ## Loops and lookups -/

theorem forLoop_inv {σ : Type} (body : Nat → σ → σ × List Call)
    (I : Nat → σ → List Call → Prop) (n : Nat) (s0 : σ) (h0 : I 0 s0 [])
    (hstep : ∀ i s t, i < n → I i s t → I (i + 1) (body i s).1 (t ++ (body i s).2)) :
    I n (forLoop body n s0).1 (forLoop body n s0).2 := by
  induction n with
  | zero => simpa [forLoop] using h0
  | succ k ih =>
    have hk := ih (fun i s t hi hI => hstep i s t (Nat.lt_succ_of_lt hi) hI)
    simpa [forLoop] using hstep k _ _ (Nat.lt_succ_self k) hk

theorem forLoopM_inv {σ : Type} (body : Nat → σ → Option (σ × List Call))
    (I : Nat → σ → List Call → Prop) (n : Nat) (s0 : σ) (h0 : I 0 s0 [])
    (hstep : ∀ i s t, i < n → I i s t →
      ∃ r, body i s = some r ∧ I (i + 1) r.1 (t ++ r.2)) :
    ∃ r, forLoopM body n s0 = some r ∧ I n r.1 r.2 := by
  induction n with
  | zero => exact ⟨(s0, []), rfl, h0⟩
  | succ k ih =>
    obtain ⟨r, hr, hI⟩ := ih (fun i s t hi hI => hstep i s t (Nat.lt_succ_of_lt hi) hI)
    obtain ⟨r2, hr2, hI2⟩ := hstep k r.1 r.2 (Nat.lt_succ_self k) hI
    exact ⟨(r2.1, r.2 ++ r2.2), by simp [forLoopM, hr, hr2], hI2⟩

theorem getActuator_of_lt (c : Controller) (i : Nat) (h : i < c.numberOfActuators) :
    getActuator c i = some i := by
  simp [getActuator, h]

theorem getActuator_of_le (c : Controller) (i : Nat) (h : c.numberOfActuators ≤ i) :
    getActuator c i = none := by
  simp [getActuator, Nat.not_lt.mpr h]

theorem getActuator_eq_some (c : Controller) (i a : Nat) (h : getActuator c i = some a) :
    a = i ∧ i < c.numberOfActuators := by
  unfold getActuator at h
  split at h
  · rename_i hc
    exact ⟨by simpa using h.symm, hc.2⟩
  · simp at h

theorem forLoopM_each_actuator (f : Nat → Call) (c : Controller) (n : Nat)
    (hn : n ≤ c.numberOfActuators) :
    forLoopM (fun i s =>
        match getActuator s i with
        | some a => some (s, [f a])
        | none => none) n c = some (c, (List.range n).map f) := by
  induction n with
  | zero => rfl
  | succ k ih =>
    have hk : k < c.numberOfActuators := hn
    simp [forLoopM, ih (Nat.le_of_lt hk), getActuator_of_lt c k hk, List.range_succ]

theorem enable_of_setuped (c : Controller) (h : c.setuped = true) :
    enable c = some ({ c with enabled := true },
      (List.range c.numberOfActuators).map Call.actuatorEnable) := by
  simp [enable, isSetup, h, forLoopM_each_actuator Call.actuatorEnable c _ (Nat.le_refl _)]

theorem enable_of_not_setuped (c : Controller) (h : c.setuped = false) :
    enable c = some (c, []) := by
  simp [enable, isSetup, h]

theorem disable_of_setuped (c : Controller) (h : c.setuped = true) :
    disable c = some ({ c with enabled := false },
      (List.range c.numberOfActuators).map Call.actuatorDisable) := by
  simp [disable, isSetup, h, forLoopM_each_actuator Call.actuatorDisable c _ (Nat.le_refl _)]

theorem disable_of_not_setuped (c : Controller) (h : c.setuped = false) :
    disable c = some (c, []) := by
  simp [disable, isSetup, h]

/-! ## The startup sequence -/

theorem setupActuator_servo (K : Constants) (cfg : Nat → ActuatorConfig) (n : Nat)
    (c : Controller) (h : (cfg n).actuatorType = ActuatorType.SERVO_TYPE) :
    (setupActuator K cfg n c).1.numberOfServos = c.numberOfServos + 1 ∧
    (setupActuator K cfg n c).1.numberOfEncoders = c.numberOfEncoders ∧
    (setupActuator K cfg n c).1.numberOfSteppers = c.numberOfSteppers ∧
    (setupActuator K cfg n c).1.actuators =
      Function.update c.actuators n (Actuator.setupServo c.numberOfServos) ∧
    (setupActuator K cfg n c).1.encoders = c.encoders ∧
    (setupActuator K cfg n c).1.steppers = c.steppers := by
  simp only [setupActuator, h, fatalIf, setError]
  split_ifs <;>
    simp_all [Actuator.setupServo, Actuator.hasServo, Actuator.hasStepper, Actuator.hasEncoder]

theorem setupActuator_stepper (K : Constants) (cfg : Nat → ActuatorConfig) (n : Nat)
    (c : Controller) (h : (cfg n).actuatorType = ActuatorType.STEPPER_ENCODER_TYPE) :
    (setupActuator K cfg n c).1.numberOfServos = c.numberOfServos ∧
    (setupActuator K cfg n c).1.numberOfEncoders = c.numberOfEncoders + 1 ∧
    (setupActuator K cfg n c).1.numberOfSteppers = c.numberOfSteppers + 1 ∧
    (setupActuator K cfg n c).1.actuators =
      Function.update c.actuators n
        (Actuator.setupStepper c.numberOfSteppers c.numberOfEncoders) ∧
    (setupActuator K cfg n c).1.encoders =
      Function.update c.encoders c.numberOfEncoders
        { c.encoders c.numberOfEncoders with id := (cfg n).encoderId } ∧
    (setupActuator K cfg n c).1.steppers =
      Function.update c.steppers c.numberOfSteppers { id := (cfg n).stepperId } := by
  simp only [setupActuator, h, fatalIf, setError]
  split_ifs <;>
    simp_all [Actuator.setupStepper, Actuator.hasServo, Actuator.hasStepper, Actuator.hasEncoder]

theorem setupActuator_unknown (K : Constants) (cfg : Nat → ActuatorConfig) (n : Nat)
    (c : Controller) (raw : Nat) (h : (cfg n).actuatorType = ActuatorType.unknown raw) :
    (setupActuator K cfg n c).1.numberOfServos = c.numberOfServos ∧
    (setupActuator K cfg n c).1.numberOfEncoders = c.numberOfEncoders ∧
    (setupActuator K cfg n c).1.numberOfSteppers = c.numberOfSteppers ∧
    (setupActuator K cfg n c).1.actuators = c.actuators ∧
    (setupActuator K cfg n c).1.encoders = c.encoders ∧
    (setupActuator K cfg n c).1.steppers = c.steppers ∧
    (setupActuator K cfg n c).1.errors = c.errors := by
  simp [setupActuator, h]

theorem fatalIf_calls (P : Call → Prop) (cond : Bool) (e : ErrorCode) (msg : FatalMsg)
    (r : Controller × List Call) (hP : P (Call.logFatal msg)) (hr : ∀ call ∈ r.2, P call) :
    ∀ call ∈ (fatalIf cond e msg r).2, P call := by
  intro call hc
  unfold fatalIf at hc
  split_ifs at hc
  · simp only [List.mem_append, List.mem_singleton] at hc
    rcases hc with h | h
    · exact hr call h
    · exact h ▸ hP
  · exact hr call hc

theorem setupActuator_calls (K : Constants) (cfg : Nat → ActuatorConfig) (n : Nat)
    (c : Controller) : ∀ call ∈ (setupActuator K cfg n c).2, call.isSeed = false := by
  unfold setupActuator
  split
  · refine fatalIf_calls _ _ _ _ _ rfl (fatalIf_calls _ _ _ _ _ rfl
      (fatalIf_calls _ _ _ _ _ rfl ?_))
    intro call hc
    simp only [List.mem_append, List.mem_singleton] at hc
    rcases hc with h | h
    · exact fatalIf_calls (fun x => x.isSeed = false) _ _ _ _ rfl (by simp) call h
    · exact h ▸ rfl
  · intro call hc
    simp only at hc
    revert call
    refine fatalIf_calls _ _ _ _ _ rfl (fatalIf_calls _ _ _ _ _ rfl
      (fatalIf_calls _ _ _ _ _ rfl ?_))
    intro call hc
    simp only [List.mem_append, List.mem_cons, List.mem_singleton, List.not_mem_nil,
      or_false] at hc
    rcases hc with h | h | h
    · exact fatalIf_calls (fun x => x.isSeed = false) _ _ _ _ rfl
        (fatalIf_calls (fun x => x.isSeed = false) _ _ _ _ rfl (by simp)) call h
    · exact h ▸ rfl
    · exact h ▸ rfl
  · intro call hc
    simp only [List.mem_singleton] at hc
    exact hc ▸ rfl

theorem steppersBefore_mono (cfg : Nat → ActuatorConfig) {i n : Nat} (h : i ≤ n) :
    steppersBefore cfg i ≤ steppersBefore cfg n := by
  induction n with
  | zero => simp [Nat.le_zero.mp h]
  | succ k ih =>
    rcases Nat.lt_or_ge i (k + 1) with hlt | hge
    · have := ih (Nat.le_of_lt_succ hlt)
      simp only [steppersBefore]
      split_ifs <;> omega
    · have : i = k + 1 := Nat.le_antisymm h hge
      simp [this]

theorem steppersBefore_lt (cfg : Nat → ActuatorConfig) {i n : Nat} (h : i < n)
    (ht : (cfg i).actuatorType = ActuatorType.STEPPER_ENCODER_TYPE) :
    steppersBefore cfg i < steppersBefore cfg n := by
  have h1 : steppersBefore cfg (i + 1) = steppersBefore cfg i + 1 := by
    simp [steppersBefore, ht]
  have h2 := steppersBefore_mono cfg (show i + 1 ≤ n from h)
  omega

theorem steppersBefore_inj (cfg : Nat → ActuatorConfig) {i j : Nat}
    (hi : (cfg i).actuatorType = ActuatorType.STEPPER_ENCODER_TYPE)
    (hj : (cfg j).actuatorType = ActuatorType.STEPPER_ENCODER_TYPE)
    (h : steppersBefore cfg i = steppersBefore cfg j) : i = j := by
  rcases Nat.lt_trichotomy i j with hlt | heq | hgt
  · have := steppersBefore_lt cfg hlt hi
    omega
  · exact heq
  · have := steppersBefore_lt cfg hgt hj
    omega

theorem setup_wiring (K : Constants) (cfg : Nat → ActuatorConfig) (c1 : Controller)
    (h0 : c1.numberOfServos = 0 ∧ c1.numberOfEncoders = 0 ∧ c1.numberOfSteppers = 0)
    (n : Nat) :
    (forLoop (setupActuator K cfg) n c1).1.numberOfServos = servosBefore cfg n ∧
    (forLoop (setupActuator K cfg) n c1).1.numberOfEncoders = steppersBefore cfg n ∧
    (forLoop (setupActuator K cfg) n c1).1.numberOfSteppers = steppersBefore cfg n ∧
    (∀ i, i < n → (cfg i).actuatorType = ActuatorType.STEPPER_ENCODER_TYPE →
      (forLoop (setupActuator K cfg) n c1).1.actuators i =
        Actuator.setupStepper (steppersBefore cfg i) (steppersBefore cfg i) ∧
      ((forLoop (setupActuator K cfg) n c1).1.encoders (steppersBefore cfg i)).id =
        (cfg i).encoderId ∧
      ((forLoop (setupActuator K cfg) n c1).1.steppers (steppersBefore cfg i)).id =
        (cfg i).stepperId) ∧
    (∀ i, i < n → (cfg i).actuatorType = ActuatorType.SERVO_TYPE →
      (forLoop (setupActuator K cfg) n c1).1.actuators i =
        Actuator.setupServo (servosBefore cfg i)) ∧
    (∀ i, (n ≤ i ∨ ∃ raw, (cfg i).actuatorType = ActuatorType.unknown raw) →
      (forLoop (setupActuator K cfg) n c1).1.actuators i = c1.actuators i) ∧
    (∀ call ∈ (forLoop (setupActuator K cfg) n c1).2, call.isSeed = false) := by
  induction n with
  | zero =>
    simp [forLoop, steppersBefore, servosBefore, h0]
  | succ k ih =>
    obtain ⟨ih1, ih2, ih3, ih4, ih5, ih6, ih7⟩ := ih
    have hcalls := setupActuator_calls K cfg k (forLoop (setupActuator K cfg) k c1).1
    have hmem : ∀ call ∈ (forLoop (setupActuator K cfg) (k + 1) c1).2, call.isSeed = false := by
      intro call hc
      simp only [forLoop, List.mem_append] at hc
      rcases hc with h | h
      · exact ih7 call h
      · exact hcalls call h
    cases ht : (cfg k).actuatorType with
    | SERVO_TYPE =>
      obtain ⟨a1, a2, a3, a4, a5, a6⟩ :=
        setupActuator_servo K cfg k (forLoop (setupActuator K cfg) k c1).1 ht
      refine ⟨?_, ?_, ?_, ?_, ?_, ?_, hmem⟩
      · simp [forLoop, a1, ih1, servosBefore, ht]
      · simp [forLoop, a2, ih2, steppersBefore, ht]
      · simp [forLoop, a3, ih3, steppersBefore, ht]
      · intro i hi hti
        have hne : i ≠ k := by
          rintro rfl
          rw [ht] at hti
          cases hti
        have hik : i < k := by omega
        simp only [forLoop, a4, a5, a6, Function.update_noteq hne]
        exact ih4 i hik hti
      · intro i hi hti
        rcases Nat.lt_or_ge i k with hik | hik
        · have hne : i ≠ k := by omega
          simp only [forLoop, a4, Function.update_noteq hne]
          exact ih5 i hik hti
        · have hik2 : i = k := by omega
          subst hik2
          simp [forLoop, a4, ih1]
      · intro i hi
        have hne : i ≠ k := by
          rcases hi with h | ⟨raw, h⟩
          · omega
          · rintro rfl
            rw [ht] at h
            cases h
        simp only [forLoop, a4, Function.update_noteq hne]
        apply ih6
        rcases hi with h | h
        · exact Or.inl (by omega)
        · exact Or.inr h
    | STEPPER_ENCODER_TYPE =>
      obtain ⟨a1, a2, a3, a4, a5, a6⟩ :=
        setupActuator_stepper K cfg k (forLoop (setupActuator K cfg) k c1).1 ht
      refine ⟨?_, ?_, ?_, ?_, ?_, ?_, hmem⟩
      · simp [forLoop, a1, ih1, servosBefore, ht]
      · simp [forLoop, a2, ih2, steppersBefore, ht]
      · simp [forLoop, a3, ih3, steppersBefore, ht]
      · intro i hi hti
        rcases Nat.lt_or_ge i k with hik | hik
        · have hne : i ≠ k := by omega
          have hlt := steppersBefore_lt cfg hik hti
          have hne2 : steppersBefore cfg i ≠
              (forLoop (setupActuator K cfg) k c1).1.numberOfEncoders := by
            rw [ih2]; omega
          have hne3 : steppersBefore cfg i ≠
              (forLoop (setupActuator K cfg) k c1).1.numberOfSteppers := by
            rw [ih3]; omega
          simp only [forLoop, a4, a5, a6, Function.update_noteq hne,
            Function.update_noteq hne2, Function.update_noteq hne3]
          exact ih4 i hik hti
        · have hik2 : i = k := by omega
          subst hik2
          simp only [forLoop, a4, a5, a6, Function.update_same]
          rw [← ih2]
          refine ⟨?_, ?_, ?_⟩
          · rw [ih3, ih2]
          · simp
          · rw [ih2, ← ih3]; simp
      · intro i hi hti
        have hne : i ≠ k := by
          rintro rfl
          rw [ht] at hti
          cases hti
        have hik : i < k := by omega
        simp only [forLoop, a4, Function.update_noteq hne]
        exact ih5 i hik hti
      · intro i hi
        have hne : i ≠ k := by
          rcases hi with h | ⟨raw, h⟩
          · omega
          · rintro rfl
            rw [ht] at h
            cases h
        simp only [forLoop, a4, Function.update_noteq hne]
        apply ih6
        rcases hi with h | h
        · exact Or.inl (by omega)
        · exact Or.inr h
    | unknown raw =>
      obtain ⟨a1, a2, a3, a4, a5, a6, _⟩ :=
        setupActuator_unknown K cfg k (forLoop (setupActuator K cfg) k c1).1 raw ht
      refine ⟨?_, ?_, ?_, ?_, ?_, ?_, hmem⟩
      · simp [forLoop, a1, ih1, servosBefore, ht]
      · simp [forLoop, a2, ih2, steppersBefore, ht]
      · simp [forLoop, a3, ih3, steppersBefore, ht]
      · intro i hi hti
        have hne : i ≠ k := by
          rintro rfl
          rw [ht] at hti
          cases hti
        have hik : i < k := by omega
        simp only [forLoop, a4, a5, a6]
        exact ih4 i hik hti
      · intro i hi hti
        have hne : i ≠ k := by
          rintro rfl
          rw [ht] at hti
          cases hti
        have hik : i < k := by omega
        simp only [forLoop, a4]
        exact ih5 i hik hti
      · intro i hi
        simp only [forLoop, a4]
        rcases Nat.lt_or_ge i k with hik | hik
        · rcases hi with h | h
          · omega
          · exact ih6 i (Or.inr h)
        · exact ih6 i (Or.inl hik)

theorem setupCheckEncoder_frame (env : SetupEnv) (i : Nat) (c : Controller) :
    (setupCheckEncoder env i c).1.numberOfActuators = c.numberOfActuators ∧
    (setupCheckEncoder env i c).1.numberOfEncoders = c.numberOfEncoders ∧
    (setupCheckEncoder env i c).1.actuators = c.actuators ∧
    (setupCheckEncoder env i c).1.steppers = c.steppers ∧
    (setupCheckEncoder env i c).1.encoders =
      Function.update c.encoders i
        { c.encoders i with ok := env.encoderOk i, angle := env.encoderAngle i } ∧
    (∀ x ∈ c.errors, x ∈ (setupCheckEncoder env i c).1.errors) ∧
    (env.encoderOk i = false →
      ErrorCode.ENCODER_CHECK_FAILED ∈ (setupCheckEncoder env i c).1.errors) ∧
    (setupCheckEncoder env i c).2 = [Call.checkEncoderVariance i] := by
  unfold setupCheckEncoder
  cases h : env.encoderOk i <;> simp +contextual [h, setError]

theorem setup_checks (env : SetupEnv) (c2 : Controller) (m : Nat) :
    (forLoop (setupCheckEncoder env) m c2).1.numberOfActuators = c2.numberOfActuators ∧
    (forLoop (setupCheckEncoder env) m c2).1.numberOfEncoders = c2.numberOfEncoders ∧
    (forLoop (setupCheckEncoder env) m c2).1.actuators = c2.actuators ∧
    (forLoop (setupCheckEncoder env) m c2).1.steppers = c2.steppers ∧
    (∀ e, ((forLoop (setupCheckEncoder env) m c2).1.encoders e).id = (c2.encoders e).id) ∧
    (∀ e, e < m →
      ((forLoop (setupCheckEncoder env) m c2).1.encoders e).ok = env.encoderOk e ∧
      ((forLoop (setupCheckEncoder env) m c2).1.encoders e).angle = env.encoderAngle e) ∧
    (∀ e, m ≤ e → (forLoop (setupCheckEncoder env) m c2).1.encoders e = c2.encoders e) ∧
    (∀ x ∈ c2.errors, x ∈ (forLoop (setupCheckEncoder env) m c2).1.errors) ∧
    (∀ e, e < m → env.encoderOk e = false →
      ErrorCode.ENCODER_CHECK_FAILED ∈ (forLoop (setupCheckEncoder env) m c2).1.errors) ∧
    (∀ e, e < m → Call.checkEncoderVariance e ∈ (forLoop (setupCheckEncoder env) m c2).2) ∧
    (∀ call ∈ (forLoop (setupCheckEncoder env) m c2).2, call.isSeed = false) := by
  induction m with
  | zero => simp [forLoop]
  | succ k ih =>
    obtain ⟨i1, i2, i3, i4, i5, i6, i7, i8, i9, i10, i11⟩ := ih
    obtain ⟨f1, f2, f3, f4, f5, f6, f7, f8⟩ :=
      setupCheckEncoder_frame env k (forLoop (setupCheckEncoder env) k c2).1
    refine ⟨?_, ?_, ?_, ?_, ?_, ?_, ?_, ?_, ?_, ?_, ?_⟩
    · simp only [forLoop, f1, i1]
    · simp only [forLoop, f2, i2]
    · simp only [forLoop, f3, i3]
    · simp only [forLoop, f4, i4]
    · intro e
      simp only [forLoop, f5]
      by_cases he : e = k
      · subst he
        simp [i5]
      · simp [Function.update_noteq he, i5]
    · intro e he
      simp only [forLoop, f5]
      by_cases hek : e = k
      · subst hek
        simp
      · rw [Function.update_noteq hek]
        exact i6 e (by omega)
    · intro e he
      simp only [forLoop, f5]
      have hek : e ≠ k := by omega
      rw [Function.update_noteq hek]
      exact i7 e (by omega)
    · intro x hx
      simp only [forLoop]
      exact f6 x (i8 x hx)
    · intro e he hbad
      simp only [forLoop]
      by_cases hek : e = k
      · subst hek
        exact f7 hbad
      · exact f6 _ (i9 e (by omega) hbad)
    · intro e he
      simp only [forLoop, f8, List.mem_append, List.mem_singleton]
      by_cases hek : e = k
      · exact Or.inr (by rw [hek])
      · exact Or.inl (i10 e (by omega))
    · intro call hc
      simp only [forLoop, f8, List.mem_append, List.mem_singleton] at hc
      rcases hc with h | h
      · exact i11 call h
      · rw [h]; rfl

theorem setupSeed_spec (env : SetupEnv) (i : Nat) (s : Controller)
    (hi : i < s.numberOfActuators) :
    ∃ r, setupSeed env i s = some r ∧
      r.1.numberOfActuators = s.numberOfActuators ∧
      r.1.numberOfEncoders = s.numberOfEncoders ∧
      r.1.actuators = s.actuators ∧
      r.1.encoders = s.encoders ∧
      r.1.steppers = s.steppers ∧
      (∀ x ∈ s.errors, x ∈ r.1.errors) ∧
      (∀ e st, (s.actuators i).encoder = some e → (s.actuators i).stepperDrive = some st →
        ((s.encoders e).id ≠ (s.steppers st).id →
          ErrorCode.MISCONFIG_ENCODER_STEPPER_MISMATCH ∈ r.1.errors) ∧
        ((s.encoders e).id = (s.steppers st).id → (s.encoders e).ok = true →
          r.2 = [Call.setCurrentAngle st (s.encoders e).angle,
            Call.setMeasuredAngle st (s.encoders e).angle (env.millis i),
            Call.stepperSetAngle st (s.encoders e).angle 1])) ∧
      (∀ call ∈ r.2, call.isSeed = true →
        ∃ e st, (s.actuators i).encoder = some e ∧ (s.actuators i).stepperDrive = some st ∧
          (s.encoders e).id = (s.steppers st).id ∧ call.seedTarget = some st) := by
  have hg := getActuator_of_lt s i hi
  cases he : (s.actuators i).encoder with
  | none =>
    have hEq : setupSeed env i s = some (s, []) := by simp [setupSeed, hg, he]
    exact ⟨_, hEq, by simp⟩
  | some e =>
    cases hs : (s.actuators i).stepperDrive with
    | none =>
      have hEq : setupSeed env i s =
          some (setError s ErrorCode.MISCONFIG_ENCODER_WITH_NO_STEPPER,
            [Call.logFatal FatalMsg.encoderHasNoStepper]) := by
        simp [setupSeed, hg, he, hs]
      refine ⟨_, hEq, ?_⟩
      simp +contextual [setError, Call.isSeed]
    | some st =>
      by_cases hid : (s.encoders e).id = (s.steppers st).id
      · cases hok : (s.encoders e).ok
        · have hEq : setupSeed env i s =
              some (setError s ErrorCode.ENCODER_CALL_FAILED,
                [Call.logFatal FatalMsg.encoderNotOk]) := by
            simp [setupSeed, hg, he, hs, hid, hok]
          refine ⟨_, hEq, ?_⟩
          simp +contextual [setError, Call.isSeed, hid, hok]
        · have hEq : setupSeed env i s =
              some (s, [Call.setCurrentAngle st (s.encoders e).angle,
                Call.setMeasuredAngle st (s.encoders e).angle (env.millis i),
                Call.stepperSetAngle st (s.encoders e).angle 1]) := by
            simp [setupSeed, hg, he, hs, hid, hok]
          refine ⟨_, hEq, ?_⟩
          simp +contextual [Call.seedTarget, hid]
      · have hEq : setupSeed env i s =
            some (setError s ErrorCode.MISCONFIG_ENCODER_STEPPER_MISMATCH,
              [Call.logFatal FatalMsg.encoderAndStepperDifferent]) := by
          simp [setupSeed, hg, he, hs, hid]
        refine ⟨_, hEq, ?_⟩
        simp +contextual [setError, Call.isSeed, hid]

theorem setup_seeding (env : SetupEnv) (c : Controller) (n : Nat)
    (hn : n ≤ c.numberOfActuators) :
    ∃ r, forLoopM (setupSeed env) n c = some r ∧
      r.1.numberOfActuators = c.numberOfActuators ∧
      r.1.numberOfEncoders = c.numberOfEncoders ∧
      r.1.actuators = c.actuators ∧
      r.1.encoders = c.encoders ∧
      r.1.steppers = c.steppers ∧
      (∀ x ∈ c.errors, x ∈ r.1.errors) ∧
      (∀ j e st, j < n → (c.actuators j).encoder = some e →
        (c.actuators j).stepperDrive = some st →
        ((c.encoders e).id ≠ (c.steppers st).id →
          ErrorCode.MISCONFIG_ENCODER_STEPPER_MISMATCH ∈ r.1.errors) ∧
        ((c.encoders e).id = (c.steppers st).id → (c.encoders e).ok = true →
          [Call.setCurrentAngle st (c.encoders e).angle,
            Call.setMeasuredAngle st (c.encoders e).angle (env.millis j),
            Call.stepperSetAngle st (c.encoders e).angle 1] <:+: r.2)) ∧
      (∀ call ∈ r.2, call.isSeed = true →
        ∃ j e st, j < n ∧ (c.actuators j).encoder = some e ∧
          (c.actuators j).stepperDrive = some st ∧
          (c.encoders e).id = (c.steppers st).id ∧ call.seedTarget = some st) := by
  refine forLoopM_inv (setupSeed env)
    (fun i s t =>
      s.numberOfActuators = c.numberOfActuators ∧
      s.numberOfEncoders = c.numberOfEncoders ∧
      s.actuators = c.actuators ∧
      s.encoders = c.encoders ∧
      s.steppers = c.steppers ∧
      (∀ x ∈ c.errors, x ∈ s.errors) ∧
      (∀ j e st, j < i → (c.actuators j).encoder = some e →
        (c.actuators j).stepperDrive = some st →
        ((c.encoders e).id ≠ (c.steppers st).id →
          ErrorCode.MISCONFIG_ENCODER_STEPPER_MISMATCH ∈ s.errors) ∧
        ((c.encoders e).id = (c.steppers st).id → (c.encoders e).ok = true →
          [Call.setCurrentAngle st (c.encoders e).angle,
            Call.setMeasuredAngle st (c.encoders e).angle (env.millis j),
            Call.stepperSetAngle st (c.encoders e).angle 1] <:+: t)) ∧
      (∀ call ∈ t, call.isSeed = true →
        ∃ j e st, j < i ∧ (c.actuators j).encoder = some e ∧
          (c.actuators j).stepperDrive = some st ∧
          (c.encoders e).id = (c.steppers st).id ∧ call.seedTarget = some st))
    n c ?_ ?_
  · simp
  · rintro i s t hi ⟨h1, h2, h3, h4, h5, h6, h7, h8⟩
    obtain ⟨r, hr, g1, g2, g3, g4, g5, g6, g7, g8⟩ :=
      setupSeed_spec env i s (by omega)
    rw [h3, h4, h5] at g7 g8
    refine ⟨r, hr, by rw [g1, h1], by rw [g2, h2], by rw [g3, h3], by rw [g4, h4],
      by rw [g5, h5], fun x hx => g6 x (h6 x hx), ?_, ?_⟩
    · intro j e st hj he hs
      rcases Nat.lt_or_ge j i with hji | hji
      · obtain ⟨p1, p2⟩ := h7 j e st hji he hs
        refine ⟨fun hne => g6 _ (p1 hne), fun heq hok => ?_⟩
        obtain ⟨pre, post, hpp⟩ := p2 heq hok
        exact ⟨pre, post ++ r.2, by simp [← hpp]⟩
      · have hji2 : j = i := by omega
        subst hji2
        obtain ⟨q1, q2⟩ := g7 e st he hs
        refine ⟨q1, fun heq hok => ?_⟩
        rw [q2 heq hok]
        exact List.suffix_append _ _ |>.isInfix
    · intro call hc hseed
      rw [List.mem_append] at hc
      rcases hc with hc | hc
      · obtain ⟨j, e, st, hj, rest⟩ := h8 call hc hseed
        exact ⟨j, e, st, by omega, rest⟩
      · obtain ⟨e, st, rest⟩ := g8 call hc hseed
        exact ⟨i, e, st, by omega, rest⟩

theorem disable_resetError (c : Controller) :
    ∃ r0, disable (resetError c) = some r0 ∧ r0.1.actuators = c.actuators ∧
      r0.1.errors = [] ∧
      (∀ call ∈ r0.2, call.isSeed = false) := by
  cases h : (resetError c).setuped
  · exact ⟨_, disable_of_not_setuped _ h, rfl, rfl, by simp⟩
  · refine ⟨_, disable_of_setuped _ h, rfl, rfl, ?_⟩
    intro call hc
    simp only [List.mem_map] at hc
    obtain ⟨a, _, rfl⟩ := hc
    rfl

theorem setup_spec (K : Constants) (cfg : Nat → ActuatorConfig) (env : SetupEnv)
    (c : Controller) :
    ∃ c' tr, setup K cfg env c = some (!isError c', c', tr) ∧
      c'.setuped = true ∧
      c'.numberOfActuators = K.MAX_ACTUATORS ∧
      c'.numberOfEncoders = steppersBefore cfg K.MAX_ACTUATORS ∧
      (∀ i, i < K.MAX_ACTUATORS → (cfg i).actuatorType = ActuatorType.STEPPER_ENCODER_TYPE →
        c'.actuators i = Actuator.setupStepper (steppersBefore cfg i) (steppersBefore cfg i) ∧
        (c'.encoders (steppersBefore cfg i)).id = (cfg i).encoderId ∧
        (c'.steppers (steppersBefore cfg i)).id = (cfg i).stepperId) ∧
      (∀ i, i < K.MAX_ACTUATORS → (cfg i).actuatorType = ActuatorType.SERVO_TYPE →
        c'.actuators i = Actuator.setupServo (servosBefore cfg i)) ∧
      (∀ i, (K.MAX_ACTUATORS ≤ i ∨ ∃ raw, (cfg i).actuatorType = ActuatorType.unknown raw) →
        c'.actuators i = c.actuators i) ∧
      (∀ e, e < steppersBefore cfg K.MAX_ACTUATORS →
        (c'.encoders e).ok = env.encoderOk e ∧ (c'.encoders e).angle = env.encoderAngle e) ∧
      (∀ e, e < steppersBefore cfg K.MAX_ACTUATORS → env.encoderOk e = false →
        ErrorCode.ENCODER_CHECK_FAILED ∈ c'.errors) ∧
      (∀ e, e < steppersBefore cfg K.MAX_ACTUATORS → Call.checkEncoderVariance e ∈ tr) ∧
      (∀ j e st, j < K.MAX_ACTUATORS → (c'.actuators j).encoder = some e →
        (c'.actuators j).stepperDrive = some st →
        ((c'.encoders e).id ≠ (c'.steppers st).id →
          ErrorCode.MISCONFIG_ENCODER_STEPPER_MISMATCH ∈ c'.errors) ∧
        ((c'.encoders e).id = (c'.steppers st).id → (c'.encoders e).ok = true →
          [Call.setCurrentAngle st (c'.encoders e).angle,
            Call.setMeasuredAngle st (c'.encoders e).angle (env.millis j),
            Call.stepperSetAngle st (c'.encoders e).angle 1] <:+: tr)) ∧
      (∀ call ∈ tr, call.isSeed = true →
        ∃ j e st, j < K.MAX_ACTUATORS ∧ (c'.actuators j).encoder = some e ∧
          (c'.actuators j).stepperDrive = some st ∧
          (c'.encoders e).id = (c'.steppers st).id ∧ call.seedTarget = some st) := by
  obtain ⟨r0, hr0, hact0, herr0, hcalls0⟩ := disable_resetError c
  generalize hc1 :
    ({ r0.1 with numberOfSteppers := 0, numberOfEncoders := 0, numberOfServos := 0 } :
      Controller) = c1
  have hc1a : c1.actuators = c.actuators := by rw [← hc1]; exact hact0
  have hc10 : c1.numberOfServos = 0 ∧ c1.numberOfEncoders = 0 ∧ c1.numberOfSteppers = 0 := by
    rw [← hc1]; exact ⟨rfl, rfl, rfl⟩
  obtain ⟨w1, w2, w3, w4, w5, w6, w7⟩ := setup_wiring K cfg c1 hc10 K.MAX_ACTUATORS
  generalize hr1 : setupWire K cfg c1 = r1
  have hr1a : r1.1.actuators =
      (forLoop (setupActuator K cfg) K.MAX_ACTUATORS c1).1.actuators := by rw [← hr1]; rfl
  have hr1e : r1.1.encoders =
      (forLoop (setupActuator K cfg) K.MAX_ACTUATORS c1).1.encoders := by rw [← hr1]; rfl
  have hr1s : r1.1.steppers =
      (forLoop (setupActuator K cfg) K.MAX_ACTUATORS c1).1.steppers := by rw [← hr1]; rfl
  have hr1n : r1.1.numberOfActuators = K.MAX_ACTUATORS := by rw [← hr1]; rfl
  have hr1ne : r1.1.numberOfEncoders = steppersBefore cfg K.MAX_ACTUATORS := by
    rw [← hr1]; exact w2
  have hr1ns : r1.1.numberOfSteppers = steppersBefore cfg K.MAX_ACTUATORS := by
    rw [← hr1]; exact w3
  have hr1nv : r1.1.numberOfServos = servosBefore cfg K.MAX_ACTUATORS := by
    rw [← hr1]; exact w1
  have hr1c : r1.2 = (forLoop (setupActuator K cfg) K.MAX_ACTUATORS c1).2 := by
    rw [← hr1]; rfl
  obtain ⟨k1, k2, k3, k4, k5, k6, k7, k8, k9, k10, k11⟩ :=
    setup_checks env r1.1 r1.1.numberOfEncoders
  generalize hr2 : setupCheck env r1.1 = r2
  have hr2' : forLoop (setupCheckEncoder env) r1.1.numberOfEncoders r1.1 = r2 := hr2
  rw [hr2'] at k1 k2 k3 k4 k5 k6 k7 k8 k9 k10 k11
  obtain ⟨r3, hr3, s1, s2, s3, s4, s5, s6, s7, s8⟩ :=
    setup_seeding env r2.1 r2.1.numberOfActuators (Nat.le_refl _)
  have hsetup : setup K cfg env c =
      some (!isError { r3.1 with setuped := true }, { r3.1 with setuped := true },
        if isError r3.1 then
          r0.2 ++ [Call.switchServoPowerSupply true] ++ r1.2 ++ r2.2 ++ r3.2 ++
            [Call.switchServoPowerSupply false]
        else r0.2 ++ [Call.switchServoPowerSupply true] ++ r1.2 ++ r2.2 ++ r3.2) := by
    simp only [setup, hr0, hc1, hr1, hr2, hr3]
  have hA : r3.1.actuators = (forLoop (setupActuator K cfg) K.MAX_ACTUATORS c1).1.actuators := by
    rw [s3, k3, hr1a]
  have hS : r3.1.steppers = (forLoop (setupActuator K cfg) K.MAX_ACTUATORS c1).1.steppers := by
    rw [s5, k4, hr1s]
  have hEid : ∀ e, (r3.1.encoders e).id =
      ((forLoop (setupActuator K cfg) K.MAX_ACTUATORS c1).1.encoders e).id := by
    intro e
    rw [s4, k5, hr1e]
  have hN : r2.1.numberOfActuators = K.MAX_ACTUATORS := by rw [k1, hr1n]
  have hsub : ∀ l : List Call, l <:+: r3.2 →
      l <:+: (if isError r3.1 then
          r0.2 ++ [Call.switchServoPowerSupply true] ++ r1.2 ++ r2.2 ++ r3.2 ++
            [Call.switchServoPowerSupply false]
        else r0.2 ++ [Call.switchServoPowerSupply true] ++ r1.2 ++ r2.2 ++ r3.2) := by
    intro l hl
    have h1 : l <:+: r0.2 ++ [Call.switchServoPowerSupply true] ++ r1.2 ++ r2.2 ++ r3.2 :=
      hl.trans (List.suffix_append _ _).isInfix
    split_ifs
    · exact h1.trans (List.prefix_append _ _).isInfix
    · exact h1
  have hmem : ∀ call, call ∈ (if isError r3.1 then
          r0.2 ++ [Call.switchServoPowerSupply true] ++ r1.2 ++ r2.2 ++ r3.2 ++
            [Call.switchServoPowerSupply false]
        else r0.2 ++ [Call.switchServoPowerSupply true] ++ r1.2 ++ r2.2 ++ r3.2) →
      call.isSeed = true → call ∈ r3.2 := by
    intro call hc hseed
    have hcases : call ∈ r0.2 ∨ call = Call.switchServoPowerSupply true ∨ call ∈ r1.2 ∨
        call ∈ r2.2 ∨ call ∈ r3.2 ∨ call = Call.switchServoPowerSupply false := by
      split_ifs at hc <;> simp only [List.mem_append, List.mem_singleton] at hc <;> tauto
    rcases hcases with h | h | h | h | h | h
    · rw [hcalls0 call h] at hseed; cases hseed
    · rw [h] at hseed; cases hseed
    · rw [hr1c] at h; rw [w7 call h] at hseed; cases hseed
    · rw [k11 call h] at hseed; cases hseed
    · exact h
    · rw [h] at hseed; cases hseed
  refine ⟨{ r3.1 with setuped := true }, _, hsetup, rfl, ?_, ?_, ?_, ?_, ?_, ?_, ?_, ?_, ?_, ?_⟩
  · show r3.1.numberOfActuators = K.MAX_ACTUATORS
    rw [s1, hN]
  · show r3.1.numberOfEncoders = _
    rw [s2, k2, hr1ne]
  · intro i hi ht
    show r3.1.actuators i = _ ∧ (r3.1.encoders _).id = _ ∧ (r3.1.steppers _).id = _
    rw [hA, hS, hEid]
    exact w4 i hi ht
  · intro i hi ht
    show r3.1.actuators i = _
    rw [hA]
    exact w5 i hi ht
  · intro i hi
    show r3.1.actuators i = _
    rw [hA, w6 i hi, hc1a]
  · intro e he
    show (r3.1.encoders e).ok = _ ∧ (r3.1.encoders e).angle = _
    rw [s4]
    exact k6 e (by rw [hr1ne]; exact he)
  · intro e he hbad
    show ErrorCode.ENCODER_CHECK_FAILED ∈ r3.1.errors
    exact s6 _ (k9 e (by rw [hr1ne]; exact he) hbad)
  · intro e he
    have h1 : Call.checkEncoderVariance e ∈ r2.2 := k10 e (by rw [hr1ne]; exact he)
    split_ifs <;> simp [h1]
  · intro j e st hj he hs
    have he' : (r2.1.actuators j).encoder = some e := by rw [← s3]; exact he
    have hs' : (r2.1.actuators j).stepperDrive = some st := by rw [← s3]; exact hs
    obtain ⟨p1, p2⟩ := s7 j e st (by rw [hN]; exact hj) he' hs'
    show ((r3.1.encoders e).id ≠ (r3.1.steppers st).id → _ ∈ r3.1.errors) ∧
      ((r3.1.encoders e).id = (r3.1.steppers st).id → (r3.1.encoders e).ok = true → _)
    rw [s4, s5]
    exact ⟨p1, fun h1 h2 => hsub _ (p2 h1 h2)⟩
  · intro call hc hseed
    obtain ⟨j, e, st, hj, q1, q2, q3, q4⟩ := s8 call (hmem call hc hseed) hseed
    refine ⟨j, e, st, by rw [← hN]; exact hj, ?_, ?_, ?_, q4⟩
    · show (r3.1.actuators j).encoder = some e
      rw [s3]; exact q1
    · show (r3.1.actuators j).stepperDrive = some st
      rw [s3]; exact q2
    · show (r3.1.encoders e).id = (r3.1.steppers st).id
      rw [s4, s5]; exact q3

/-! ## The scheduling loop -/

theorem sameWiring_refl (a : Controller) : SameWiring a a :=
  ⟨rfl, rfl, rfl, rfl, rfl, rfl, rfl, rfl, fun _ => rfl⟩

theorem sameWiring_trans {a b c : Controller} (h1 : SameWiring a b) (h2 : SameWiring b c) :
    SameWiring a c := by
  obtain ⟨a1, a2, a3, a4, a5, a6, a7, a8, a9⟩ := h1
  obtain ⟨b1, b2, b3, b4, b5, b6, b7, b8, b9⟩ := h2
  exact ⟨a1.trans b1, a2.trans b2, a3.trans b3, a4.trans b4, a5.trans b5, a6.trans b6,
    a7.trans b7, a8.trans b8, fun e => (a9 e).trans (b9 e)⟩

theorem stepperLoop_not_knob (c : Controller) : ∀ call ∈ stepperLoop c, call.isKnob = false := by
  intro call hc
  unfold stepperLoop at hc
  split_ifs at hc
  · simp only [List.mem_map] at hc
    obtain ⟨i, _, rfl⟩ := hc
    rfl
  · simp at hc

theorem encoderStep_spec (env : LoopEnv) (e : Nat) (s : Controller)
    (hid : (s.encoders e).id < s.numberOfActuators) :
    ∃ r, encoderStep env e s = some r ∧ SameWiring r.1 s ∧ r.1.lastAngle = s.lastAngle ∧
      (∀ e2, e2 ≠ e → r.1.encoders e2 = s.encoders e2) ∧
      (∀ call ∈ r.2, call.isKnob = false) ∧
      (∀ st, (s.actuators (s.encoders e).id).stepperDrive = some st →
        env.stepperDue e = true →
        Call.setMeasuredAngle st
          (if (s.encoders e).ok && (env.sensor e).commOk then (env.sensor e).angle
            else env.stepperAngle e) env.now ∈ r.2) := by
  have hg := getActuator_of_lt s _ hid
  have hk := stepperLoop_not_knob s
  cases hs : (s.actuators (s.encoders e).id).stepperDrive with
  | none =>
    have hEq : encoderStep env e s = some (s, stepperLoop s) := by
      simp [encoderStep, hg, hs]
    exact ⟨_, hEq, sameWiring_refl s, rfl, fun _ _ => rfl, hk, by simp⟩
  | some st =>
    cases hdue : env.stepperDue e
    · have hEq : encoderStep env e s = some (s, stepperLoop s) := by
        simp [encoderStep, hg, hs, hdue]
      exact ⟨_, hEq, sameWiring_refl s, rfl, fun _ _ => rfl, hk, by simp⟩
    · cases hok : (s.encoders e).ok
      · refine ⟨_, by simp only [encoderStep, hg, hs, hdue, hok]; rfl, sameWiring_refl s, rfl,
          fun _ _ => rfl, ?_, ?_⟩
        · intro call hc
          simp only [List.mem_append, List.mem_singleton] at hc
          rcases hc with ((h | h) | h) | h
          · exact hk call h
          · split_ifs at h
            · simp only [List.mem_singleton] at h; rw [h]; rfl
            · simp at h
          · rw [h]; rfl
          · exact hk call h
        · intro st2 hst2 _
          simp only [Option.some.injEq] at hst2
          subst hst2
          simp
      · refine ⟨_, by simp only [encoderStep, hg, hs, hdue, hok]; rfl, ?_, rfl, ?_, ?_, ?_⟩
        · refine ⟨rfl, rfl, rfl, rfl, rfl, rfl, rfl, rfl, ?_⟩
          intro e2
          by_cases h2 : e2 = e
          · subst h2; simp
          · simp [Function.update_noteq h2]
        · intro e2 h2
          simp [Function.update_noteq h2]
        · intro call hc
          simp only [List.mem_append, List.mem_cons, List.mem_singleton, List.not_mem_nil,
            or_false] at hc
          rcases hc with ((h | h) | h | h) | h
          · exact hk call h
          · split_ifs at h
            · simp only [List.mem_singleton] at h; rw [h]; rfl
            · simp at h
          · rw [h]; rfl
          · rw [h]; rfl
          · exact stepperLoop_not_knob _ call h
        · intro st2 hst2 _
          simp only [Option.some.injEq] at hst2
          subst hst2
          cases hcomm : (env.sensor e).commOk <;> simp [hcomm]

theorem encodersInRange_of_sameWiring {a b : Controller} (h : SameWiring a b)
    (hb : EncodersInRange b) : EncodersInRange a := by
  obtain ⟨_, a2, a3, _, _, _, _, _, a9⟩ := h
  intro e he
  rw [a9 e, a2]
  exact hb e (by rw [← a3]; exact he)

theorem encoderPass_spec (env : LoopEnv) (c : Controller) (n : Nat)
    (hin : EncodersInRange c) (hn : n ≤ c.numberOfEncoders) :
    ∃ r, forLoopM (encoderStep env) n c = some r ∧ SameWiring r.1 c ∧
      r.1.lastAngle = c.lastAngle ∧
      (∀ e, n ≤ e → r.1.encoders e = c.encoders e) ∧
      (∀ call ∈ r.2, call.isKnob = false) ∧
      (∀ e st, e < n → (c.actuators (c.encoders e).id).stepperDrive = some st →
        env.stepperDue e = true →
        Call.setMeasuredAngle st
          (if (c.encoders e).ok && (env.sensor e).commOk then (env.sensor e).angle
            else env.stepperAngle e) env.now ∈ r.2) := by
  refine forLoopM_inv (encoderStep env)
    (fun i s t => SameWiring s c ∧ s.lastAngle = c.lastAngle ∧
      (∀ e, i ≤ e → s.encoders e = c.encoders e) ∧
      (∀ call ∈ t, call.isKnob = false) ∧
      (∀ e st, e < i → (c.actuators (c.encoders e).id).stepperDrive = some st →
        env.stepperDue e = true →
        Call.setMeasuredAngle st
          (if (c.encoders e).ok && (env.sensor e).commOk then (env.sensor e).angle
            else env.stepperAngle e) env.now ∈ t))
    n c ⟨sameWiring_refl c, rfl, fun _ _ => rfl, by simp, by simp⟩ ?_
  rintro i s t hi ⟨h1, h2, h3, h4, h5⟩
  have hsi : s.encoders i = c.encoders i := h3 i (Nat.le_refl i)
  have hid : (s.encoders i).id < s.numberOfActuators := by
    rw [hsi, h1.2.1]
    exact hin i (by omega)
  obtain ⟨r, hr, g1, g2, g3, g4, g5⟩ := encoderStep_spec env i s hid
  refine ⟨r, hr, sameWiring_trans g1 h1, g2.trans h2, ?_, ?_, ?_⟩
  · intro e he
    rw [g3 e (by omega)]
    exact h3 e (by omega)
  · intro call hc
    rw [List.mem_append] at hc
    rcases hc with h | h
    · exact h4 call h
    · exact g4 call h
  · intro e st he hst hdue
    rw [List.mem_append]
    rcases Nat.lt_or_ge e i with hlt | hge
    · exact Or.inl (h5 e st hlt hst hdue)
    · have hei : e = i := by omega
      subst hei
      right
      have := g5 st (by rw [hsi, h1.2.2.2.2.2.1]; exact hst) hdue
      rw [hsi] at this
      exact this

theorem knobPass_sameWiring (K : Constants) (env : LoopEnv) (c : Controller) :
    SameWiring (knobPass K env c).1 c ∧ (knobPass K env c).1.encoders = c.encoders := by
  unfold knobPass
  split
  · exact ⟨sameWiring_refl c, rfl⟩
  · split_ifs <;> exact ⟨sameWiring_refl c, rfl⟩

theorem knobPass_calls (K : Constants) (env : LoopEnv) (c : Controller) :
    (knobPass K env c).2.filter Call.isKnob = (knobPass K env c).2 := by
  unfold knobPass
  split
  · rfl
  · split_ifs <;> rfl

theorem servoPass_calls (K : Constants) (env : LoopEnv) (c : Controller) :
    ∀ call ∈ servoPass K env c, call.isKnob = false := by
  unfold servoPass
  split_ifs
  · refine (forLoop_inv (fun i (s : Controller) => (s, Call.servoLoop i env.now :: stepperLoop s))
      (fun _ _ t => ∀ call ∈ t, call.isKnob = false) K.MAX_SERVOS c (by simp) ?_)
    intro i s t _ ht call hc
    simp only [List.mem_append, List.mem_cons] at hc
    rcases hc with h | h | h
    · exact ht call h
    · rw [h]; rfl
    · exact stepperLoop_not_knob s call h
  · simp

theorem servoPass_invokes_all (K : Constants) (env : LoopEnv) (c : Controller)
    (hdue : env.servoDue = true) :
    ∀ i, i < K.MAX_SERVOS → Call.servoLoop i env.now ∈ servoPass K env c := by
  unfold servoPass
  rw [if_pos hdue]
  refine (forLoop_inv (fun i (s : Controller) => (s, Call.servoLoop i env.now :: stepperLoop s))
    (fun n _ t => ∀ i, i < n → Call.servoLoop i env.now ∈ t) K.MAX_SERVOS c (by simp) ?_)
  intro n s t _ ht i hi
  simp only [List.mem_append, List.mem_cons]
  rcases Nat.lt_or_ge i n with h | h
  · exact Or.inl (ht i h)
  · have : i = n := by omega
    exact Or.inr (Or.inl (by rw [this]))

theorem filter_eq_nil_of_forall {l : List Call} (h : ∀ call ∈ l, call.isKnob = false) :
    l.filter Call.isKnob = [] := by
  rw [List.filter_eq_nil_iff]
  intro a ha
  simp [h a ha]

theorem loop_spec (K : Constants) (env : LoopEnv) (c : Controller) (hin : EncodersInRange c) :
    ∃ r, loop K env c = some r ∧ SameWiring r.1 c ∧ EncodersInRange r.1 ∧
      r.1.lastAngle = (knobPass K env c).1.lastAngle ∧
      r.2.filter Call.isKnob = (knobPass K env c).2 ∧
      (∀ e st, e < c.numberOfEncoders →
        (c.actuators (c.encoders e).id).stepperDrive = some st →
        env.stepperDue e = true →
        Call.setMeasuredAngle st
          (if (c.encoders e).ok && (env.sensor e).commOk then (env.sensor e).angle
            else env.stepperAngle e) env.now ∈ r.2) := by
  obtain ⟨kw, ke⟩ := knobPass_sameWiring K env c
  have hin1 : EncodersInRange (knobPass K env c).1 := encodersInRange_of_sameWiring kw hin
  obtain ⟨r3, hr3, g1, g2, _, g4, g5⟩ :=
    encoderPass_spec env (knobPass K env c).1 (knobPass K env c).1.numberOfEncoders hin1
      (Nat.le_refl _)
  have hw : SameWiring r3.1 c := sameWiring_trans g1 kw
  refine ⟨(r3.1, stepperLoop c ++ (knobPass K env c).2 ++ servoPass K env (knobPass K env c).1
    ++ r3.2), by simp only [loop, hr3], hw, encodersInRange_of_sameWiring hw hin, g2, ?_, ?_⟩
  · simp only [List.filter_append, filter_eq_nil_of_forall (stepperLoop_not_knob c),
      filter_eq_nil_of_forall (servoPass_calls K env _), filter_eq_nil_of_forall g4,
      knobPass_calls, List.nil_append, List.append_nil]
  · intro e st he hst hdue
    have := g5 e st (by rw [kw.2.2.1]; exact he) (by rw [ke, kw.2.2.2.2.2.1]; exact hst) hdue
    rw [ke] at this
    simp only [List.mem_append]
    exact Or.inr this

theorem knobPass_sampled (K : Constants) (env : LoopEnv) (c : Controller) (m : Nat)
    (hm : c.currentMotor = some m) (hadj : c.adjustWhat = AdjustMode.ADJUST_MOTOR_BY_KNOB)
    (hdue : env.knobDue = true) :
    (knobPass K env c).1.lastAngle = knobAngle env.adcValue ∧
    (|env.adcValue - 512| < 500 →
      (knobPass K env c).2 =
        if knobAbsolute c m then
          [Call.actuatorSetAngle m (knobAngle env.adcValue) K.MOTOR_KNOB_SAMPLE_RATE]
        else
          [Call.actuatorChangeAngle m (knobAngle env.adcValue - c.lastAngle)
            K.MOTOR_KNOB_SAMPLE_RATE]) ∧
    (¬ |env.adcValue - 512| < 500 → (knobPass K env c).2 = []) := by
  simp only [knobPass, hm, hadj, hdue, if_true]
  refine ⟨trivial, fun h => by rw [if_pos h], fun h => by rw [if_neg h]⟩

theorem knobAbsolute_congr {a b : Controller} (m : Nat) (h1 : a.actuators = b.actuators)
    (h2 : a.encoders = b.encoders) : knobAbsolute a m = knobAbsolute b m := by
  unfold knobAbsolute
  rw [h1, h2]

/-! ## The claims -/

theorem paired_fresh : Paired Controller.fresh := by
  intro j s e hs _
  simp [Controller.fresh, Actuator.unwired] at hs

theorem paired_of_wiring (K : Constants) (cfg : Nat → ActuatorConfig) (c c' : Controller)
    (hp : Paired c)
    (h1 : ∀ i, i < K.MAX_ACTUATORS → (cfg i).actuatorType = ActuatorType.STEPPER_ENCODER_TYPE →
      c'.actuators i = Actuator.setupStepper (steppersBefore cfg i) (steppersBefore cfg i))
    (h2 : ∀ i, i < K.MAX_ACTUATORS → (cfg i).actuatorType = ActuatorType.SERVO_TYPE →
      c'.actuators i = Actuator.setupServo (servosBefore cfg i))
    (h3 : ∀ i, (K.MAX_ACTUATORS ≤ i ∨ ∃ raw, (cfg i).actuatorType = ActuatorType.unknown raw) →
      c'.actuators i = c.actuators i) : Paired c' := by
  intro j s e hs he
  rcases Nat.lt_or_ge j K.MAX_ACTUATORS with hj | hj
  · cases ht : (cfg j).actuatorType with
    | SERVO_TYPE =>
      rw [h2 j hj ht] at hs
      simp [Actuator.setupServo] at hs
    | STEPPER_ENCODER_TYPE =>
      rw [h1 j hj ht] at hs he
      simp only [Actuator.setupStepper, Option.some.injEq] at hs he
      omega
    | unknown raw =>
      rw [h3 j (Or.inr ⟨raw, ht⟩)] at hs he
      exact hp j s e hs he
  · rw [h3 j (Or.inl hj)] at hs he
    exact hp j s e hs he

theorem setup_preserves_paired (K : Constants) (cfg : Nat → ActuatorConfig) (env : SetupEnv)
    (c : Controller) (hp : Paired c) :
    ∃ ok c' tr, setup K cfg env c = some (ok, c', tr) ∧ Paired c' := by
  obtain ⟨c', tr, hset, _, _, _, w4, w5, w6, _⟩ := setup_spec K cfg env c
  exact ⟨_, c', tr, hset,
    paired_of_wiring K cfg c c' hp (fun j hj htj => (w4 j hj htj).1) w5 w6⟩

theorem steppersBefore_surj (cfg : Nat → ActuatorConfig) (n e : Nat)
    (he : e < steppersBefore cfg n) :
    ∃ i, i < n ∧ (cfg i).actuatorType = ActuatorType.STEPPER_ENCODER_TYPE ∧
      steppersBefore cfg i = e := by
  induction n with
  | zero => simp [steppersBefore] at he
  | succ k ih =>
    by_cases ht : (cfg k).actuatorType = ActuatorType.STEPPER_ENCODER_TYPE
    · simp only [steppersBefore, ht, if_true] at he
      rcases Nat.lt_or_ge e (steppersBefore cfg k) with h | h
      · obtain ⟨i, hi, r⟩ := ih h
        exact ⟨i, by omega, r⟩
      · exact ⟨k, by omega, ht, by omega⟩
    · simp only [steppersBefore, ht, if_false] at he
      obtain ⟨i, hi, r⟩ := ih he
      exact ⟨i, by omega, r⟩

theorem setup_encodersInRange (K : Constants) (cfg : Nat → ActuatorConfig) (env : SetupEnv)
    (c : Controller)
    (hcfg : ∀ i, i < K.MAX_ACTUATORS →
      (cfg i).actuatorType = ActuatorType.STEPPER_ENCODER_TYPE →
      (cfg i).encoderId < K.MAX_ACTUATORS) :
    ∃ ok c' tr, setup K cfg env c = some (ok, c', tr) ∧ EncodersInRange c' := by
  obtain ⟨c', tr, hset, _, hn, hne, w4, _⟩ := setup_spec K cfg env c
  refine ⟨_, c', tr, hset, ?_⟩
  intro e he
  rw [hne] at he
  obtain ⟨i, hi, ht, hie⟩ := steppersBefore_surj cfg K.MAX_ACTUATORS e he
  rw [← hie, (w4 i hi ht).2.1, hn]
  exact hcfg i hi ht

theorem isError_of_mem (c : Controller) (x : ErrorCode) (h : x ∈ c.errors) : isError c = true := by
  unfold isError
  cases hc : c.errors with
  | nil => rw [hc] at h; cases h
  | cons a l => rfl

/-- C1 (counterexample). `setup()` on `armConfig` with encoder 0 failing its
variance check returns `false`; the `enable()` that follows still calls
`enable` on all seven registry slots and sets the enabled flag. -/
theorem enable_after_failed_setup :
    (setup sampleConstants armConfig encoderZeroBadEnv Controller.fresh).bind
      (fun r => (enable r.2.1).map (fun q => (r.1, q.1.enabled, q.2))) =
    some (false, true, (List.range 7).map Call.actuatorEnable) := by
  decide

/-- C1 (amended). While `setup()` has never been run (the `setuped` flag is
still `false`, as in the constructed controller), `enable()` makes no call and
leaves the controller, hence the enabled flag, unchanged.  Every `setup()`
returns and leaves `setuped` set, whether it reports success or failure, and
from then on `enable()` calls `enable` on each of the `numberOfActuators`
registry slots, in order, and sets the enabled flag. -/
theorem enable_gated_on_finished_setup :
    (Controller.fresh.setuped = false ∧ Controller.fresh.enabled = false) ∧
    (∀ c : Controller, c.setuped = false → enable c = some (c, [])) ∧
    (∀ (K : Constants) (cfg : Nat → ActuatorConfig) (env : SetupEnv) (c : Controller),
      ∃ ok c' tr, setup K cfg env c = some (ok, c', tr) ∧ c'.setuped = true) ∧
    (∀ c : Controller, c.setuped = true →
      enable c = some ({ c with enabled := true },
        (List.range c.numberOfActuators).map Call.actuatorEnable)) := by
  refine ⟨⟨rfl, rfl⟩, enable_of_not_setuped, ?_, enable_of_setuped⟩
  intro K cfg env c
  obtain ⟨c', tr, h, hs, _⟩ := setup_spec K cfg env c
  exact ⟨_, c', tr, h, hs⟩

/-- C1 (witness). On the constructed controller `enable()` does nothing. -/
theorem enable_gated_on_finished_setup_witness :
    Controller.fresh.setuped = false ∧ enable Controller.fresh = some (Controller.fresh, []) :=
  ⟨rfl, enable_gated_on_finished_setup.2.1 Controller.fresh rfl⟩

/-- C2. For every controller and every `no` at or above `numberOfActuators`
(hence every `no` at or above `MAX_ACTUATORS` once `setup()` has run),
`selectActuator(no)` leaves no actuator selected (`getCurrentActuator()` is
`NULL`), its only call is `disable` on the previously selected actuator, if
any, and it enables no actuator. -/
theorem selectActuator_out_of_range (K : Constants) (c : Controller) (no : Nat)
    (h : c.numberOfActuators ≤ no) :
    (selectActuator K c no).1 = { c with currentMotor := none } ∧
    getCurrentActuator (selectActuator K c no).1 = none ∧
    (selectActuator K c no).2 =
      (match c.currentMotor with
       | some m => [Call.actuatorDisable m]
       | none => []) ∧
    (∀ m, c.currentMotor = some m → Call.actuatorDisable m ∈ (selectActuator K c no).2) ∧
    (∀ a, Call.actuatorEnable a ∉ (selectActuator K c no).2) := by
  have hg : ∀ c2 : Controller, c2.numberOfActuators = c.numberOfActuators →
      getActuator c2 no = none := fun c2 h2 => getActuator_of_le c2 no (h2 ▸ h)
  cases hm : c.currentMotor with
  | none => simp [selectActuator, hm, hg, getCurrentActuator]
  | some m => simp [selectActuator, hm, hg, getCurrentActuator]

/-- C2 (witness). Actuator 3 is selected on a set-up controller of seven
slots, then `selectActuator(7)` is called. -/
theorem selectActuator_out_of_range_witness :
    (selectActuator sampleConstants (afterSetup armConfig healthyEnv) 3).1.numberOfActuators ≤ 7 ∧
    (selectActuator sampleConstants (afterSetup armConfig healthyEnv) 3).1.currentMotor = some 3 ∧
    getCurrentActuator (selectActuator sampleConstants
      (selectActuator sampleConstants (afterSetup armConfig healthyEnv) 3).1 7).1 = none ∧
    (selectActuator sampleConstants
      (selectActuator sampleConstants (afterSetup armConfig healthyEnv) 3).1 7).2 =
      [Call.actuatorDisable 3] :=
  ⟨by decide, by decide,
    (selectActuator_out_of_range sampleConstants
      (selectActuator sampleConstants (afterSetup armConfig healthyEnv) 3).1 7 (by decide)).2.1,
    by decide⟩

/-- C5 (the code at the failing input). Slot 6 of `unknownTypeConfig` declares
a type that is neither `SERVO_TYPE` nor `STEPPER_ENCODER_TYPE`.  `setup()` logs
"unknown actuator type" and nothing else: it returns `true`, the error
accumulator is empty and the servo rail is never switched off. -/
theorem setup_unknown_type_succeeds :
    (setup sampleConstants unknownTypeConfig healthyEnv Controller.fresh).map
      (fun r => (r.1, r.2.1.errors, isError r.2.1,
        decide (Call.logFatal FatalMsg.unknownActuatorType ∈ r.2.2),
        decide (Call.switchServoPowerSupply false ∈ r.2.2))) =
    some (true, [], false, true, false) := by
  decide

/-- C7. The knob mapping is `(s - 512) / 512 * 135` in exact arithmetic: the
centre sample maps to 0, the sample 1024 to 135, the sample 0 to -135, the
mapping is strictly increasing, and samples in `0..1024` map into
`[-135, 135]`. -/
theorem knobAngle_mapping :
    (∀ s : Int, knobAngle s = ((s : ℚ) - 512) / 512 * 135) ∧
    knobAngle 512 = 0 ∧ knobAngle 1024 = 135 ∧ knobAngle 0 = -135 ∧
    (∀ s t : Int, s < t → knobAngle s < knobAngle t) ∧
    (∀ s : Int, 0 ≤ s → s ≤ 1024 → -135 ≤ knobAngle s ∧ knobAngle s ≤ 135) := by
  have hform : ∀ s : Int, knobAngle s = ((s : ℚ) - 512) / 512 * 135 := by
    intro s
    unfold knobAngle
    push_cast
    ring
  refine ⟨hform, ?_, ?_, ?_, ?_, ?_⟩
  · rw [hform]; norm_num
  · rw [hform]; norm_num
  · rw [hform]; norm_num
  · intro s t hst
    rw [hform, hform]
    have h : (s : ℚ) < (t : ℚ) := by exact_mod_cast hst
    linarith
  · intro s h0 h1
    rw [hform]
    have a0 : (0 : ℚ) ≤ (s : ℚ) := by exact_mod_cast h0
    have a1 : (s : ℚ) ≤ 1024 := by exact_mod_cast h1
    constructor <;> linarith

/-- C7 (witness). The sample 600 is in range and maps into `[-135, 135]`. -/
theorem knobAngle_mapping_witness :
    (0 : Int) ≤ 600 ∧ (600 : Int) ≤ 1024 ∧ -135 ≤ knobAngle 600 ∧ knobAngle 600 ≤ 135 :=
  ⟨by decide, by decide, knobAngle_mapping.2.2.2.2.2 600 (by decide) (by decide)⟩

/-- C6. Two consecutive knob ticks on a selected actuator `m` in knob mode, the
knob timer due in both, on a controller whose encoders carry identifiers of
registry slots (the resynchronisation pass of the same tick looks them up;
`setup_encodersInRange` establishes it).
Both ticks return.  The first leaves the mapped angle
of its sample in `lastAngle`.  If the second sample passes the dead-band test,
the calls of the second tick that move an actuator are exactly one: `setAngle`
on `m` with the angle mapped from the second sample when `m` has a servo or an
encoder that is ok, and otherwise `changeAngle` on `m` by the mapped angle of
the second sample minus the mapped angle of the first.  For the first tick the
same holds with the `lastAngle` it started from.  The samples 600 and 700 give
`(700-512)/512*135` and `(700-600)/512*135`. -/
theorem loop_knob_mode (K : Constants) (env1 env2 : LoopEnv) (c0 : Controller) (m : Nat)
    (hin : EncodersInRange c0) (hm : c0.currentMotor = some m)
    (hadj : c0.adjustWhat = AdjustMode.ADJUST_MOTOR_BY_KNOB)
    (hdue1 : env1.knobDue = true) (hdue2 : env2.knobDue = true)
    (hband : |env2.adcValue - 512| < 500) :
    ∃ c1 t1 c2 t2, loop K env1 c0 = some (c1, t1) ∧ loop K env2 c1 = some (c2, t2) ∧
      c1.currentMotor = some m ∧ c1.lastAngle = knobAngle env1.adcValue ∧
      (|env1.adcValue - 512| < 500 →
        t1.filter Call.isKnob =
          if knobAbsolute c0 m then
            [Call.actuatorSetAngle m (knobAngle env1.adcValue) K.MOTOR_KNOB_SAMPLE_RATE]
          else
            [Call.actuatorChangeAngle m (knobAngle env1.adcValue - c0.lastAngle)
              K.MOTOR_KNOB_SAMPLE_RATE]) ∧
      t2.filter Call.isKnob =
        (if knobAbsolute c1 m then
          [Call.actuatorSetAngle m (knobAngle env2.adcValue) K.MOTOR_KNOB_SAMPLE_RATE]
        else
          [Call.actuatorChangeAngle m (knobAngle env2.adcValue - knobAngle env1.adcValue)
            K.MOTOR_KNOB_SAMPLE_RATE]) ∧
      knobAngle 700 = (700 - 512) / 512 * 135 ∧
      knobAngle 700 - knobAngle 600 = (700 - 600) / 512 * 135 := by
  obtain ⟨r1, hr1, w1, in1, l1, f1, _⟩ := loop_spec K env1 c0 hin
  obtain ⟨r2, hr2, _, _, _, f2, _⟩ := loop_spec K env2 r1.1 in1
  obtain ⟨k1, k2, _⟩ := knobPass_sampled K env1 c0 m hm hadj hdue1
  have hm1 : r1.1.currentMotor = some m := by rw [w1.1, hm]
  have hadj1 : r1.1.adjustWhat = AdjustMode.ADJUST_MOTOR_BY_KNOB := by
    rw [w1.2.2.2.2.2.2.2.1, hadj]
  obtain ⟨_, j2, _⟩ := knobPass_sampled K env2 r1.1 m hm1 hadj1 hdue2
  have hl : r1.1.lastAngle = knobAngle env1.adcValue := by rw [l1, k1]
  refine ⟨r1.1, r1.2, r2.1, r2.2, hr1, hr2, hm1, hl, ?_, ?_, ?_, ?_⟩
  · intro hb
    rw [f1, k2 hb]
  · rw [f2, j2 hband, hl]
  · unfold knobAngle; norm_num
  · unfold knobAngle; norm_num

/-- C6 (witness). Actuator 0, a stepper with a healthy encoder, is selected on
a set-up controller in knob mode; the samples are 600 and then 700. -/
theorem loop_knob_mode_witness :
    ∃ c1 t1 c2 t2, loop sampleConstants (knobTick 1 600 0) knobController = some (c1, t1) ∧
      loop sampleConstants (knobTick 2 700 0) c1 = some (c2, t2) ∧
      c1.currentMotor = some 0 ∧ c1.lastAngle = knobAngle 600 ∧
      (|(600 : Int) - 512| < 500 →
        t1.filter Call.isKnob =
          if knobAbsolute knobController 0 then
            [Call.actuatorSetAngle 0 (knobAngle 600) 100]
          else
            [Call.actuatorChangeAngle 0 (knobAngle 600 - knobController.lastAngle) 100]) ∧
      t2.filter Call.isKnob =
        (if knobAbsolute c1 0 then [Call.actuatorSetAngle 0 (knobAngle 700) 100]
        else [Call.actuatorChangeAngle 0 (knobAngle 700 - knobAngle 600) 100]) ∧
      knobAngle 700 = (700 - 512) / 512 * 135 ∧
      knobAngle 700 - knobAngle 600 = (700 - 600) / 512 * 135 :=
  loop_knob_mode sampleConstants (knobTick 1 600 0) (knobTick 2 700 0) knobController 0
    (by unfold EncodersInRange; decide) (by decide) (by decide) rfl rfl (by decide)

/-- C8 (the code at the failing input). One `loop(5)` with the servo timer due
on a set-up controller with room for two servos: the loop of both servos is
invoked in that one tick. -/
theorem loop_runs_every_servo :
    (loop sampleConstants (servoTick 5) (afterSetup armConfig healthyEnv)).map
      (fun r => r.2.filter
        (fun call => match call with
          | Call.servoLoop _ _ => true
          | _ => false)) =
    some [Call.servoLoop 0 5, Call.servoLoop 1 5] := by
  decide

/-- C9 (counterexample). Every stepper is due.  On the first controller the
encoder of slot 0 is ok and its read fails; on the second the encoder of slot 0
is not ok.  In both ticks `setMeasuredAngle` is called on stepper 0, with the
stepper's own estimate 42. -/
theorem loop_measures_without_encoder :
    ((afterSetup armConfig healthyEnv).encoders 0).ok = true ∧
    ((failedReadTick 5 42).sensor 0).commOk = false ∧
    (loop sampleConstants (failedReadTick 5 42) (afterSetup armConfig healthyEnv)).map
      (fun r => decide (Call.setMeasuredAngle 0 42 5 ∈ r.2)) = some true ∧
    ((afterSetup armConfig encoderZeroBadEnv).encoders 0).ok = false ∧
    (loop sampleConstants (failedReadTick 5 42) (afterSetup armConfig encoderZeroBadEnv)).map
      (fun r => decide (Call.setMeasuredAngle 0 42 5 ∈ r.2)) = some true := by
  decide

/-- C9 (amended). In the resynchronisation pass of `loop(now)`, on a controller
whose encoders carry identifiers of registry slots, for every
encoder whose actuator has a stepper that is due, `setMeasuredAngle` is called
on that stepper with the time `now`: with the encoder's angle when the encoder
is ok and `getNewAngleFromSensor` returned success, and with the stepper's own
current angle when the encoder is not ok or the read failed. -/
theorem loop_resync_measures (K : Constants) (env : LoopEnv) (c : Controller) (e st : Nat)
    (hin : EncodersInRange c) (he : e < c.numberOfEncoders)
    (hst : (c.actuators (c.encoders e).id).stepperDrive = some st)
    (hdue : env.stepperDue e = true) :
    ∃ c' tr, loop K env c = some (c', tr) ∧
      ((c.encoders e).ok = true → (env.sensor e).commOk = true →
        Call.setMeasuredAngle st (env.sensor e).angle env.now ∈ tr) ∧
      (((c.encoders e).ok = false ∨ (env.sensor e).commOk = false) →
        Call.setMeasuredAngle st (env.stepperAngle e) env.now ∈ tr) := by
  obtain ⟨r, hr, _, _, _, _, hm⟩ := loop_spec K env c hin
  have h := hm e st he hst hdue
  refine ⟨r.1, r.2, hr, ?_, ?_⟩
  · intro h1 h2
    simpa [h1, h2] using h
  · intro h12
    rcases h12 with h1 | h2
    · simpa [h1] using h
    · simpa [h2] using h

/-- C9 (witness). Encoder 0 of a set-up controller, every stepper due, every
read failing. -/
theorem loop_resync_measures_witness :
    EncodersInRange (afterSetup armConfig healthyEnv) ∧
    0 < (afterSetup armConfig healthyEnv).numberOfEncoders ∧
    ∃ c' tr, loop sampleConstants (failedReadTick 5 42) (afterSetup armConfig healthyEnv) =
        some (c', tr) ∧
      (((afterSetup armConfig healthyEnv).encoders 0).ok = true →
        ((failedReadTick 5 42).sensor 0).commOk = true →
        Call.setMeasuredAngle 0 ((failedReadTick 5 42).sensor 0).angle 5 ∈ tr) ∧
      ((((afterSetup armConfig healthyEnv).encoders 0).ok = false ∨
          ((failedReadTick 5 42).sensor 0).commOk = false) →
        Call.setMeasuredAngle 0 ((failedReadTick 5 42).stepperAngle 0) 5 ∈ tr) :=
  ⟨by unfold EncodersInRange; decide, by decide,
    loop_resync_measures sampleConstants (failedReadTick 5 42) (afterSetup armConfig healthyEnv)
      0 0 (by unfold EncodersInRange; decide) (by decide) (by decide) rfl⟩

/-- C10 (the code at the failing input). `threeServoConfig` declares three
servos where `MAX_SERVOS` is 2.  On the third, `setup()` records
`MISCONFIG_TOO_MANY_SERVOS` and goes on: it sets up `servos[2]`, beyond the
capacity, and leaves `numberOfServos` at 3. -/
theorem setup_overruns_servos :
    sampleConstants.MAX_SERVOS = 2 ∧
    (setup sampleConstants threeServoConfig healthyEnv Controller.fresh).map
      (fun r => (r.2.1.numberOfServos,
        decide (ErrorCode.MISCONFIG_TOO_MANY_SERVOS ∈ r.2.1.errors),
        r.2.2.filter
          (fun call => match call with
            | Call.servoSetup _ _ => true
            | _ => false))) =
    some (3, true, [Call.servoSetup 0 4, Call.servoSetup 1 5, Call.servoSetup 2 6]) := by
  decide

/-- C3. Whenever a `STEPPER_ENCODER_TYPE` slot `i` of the registry carries a
stepper identifier different from its encoder identifier, `setup()` returns
`false`, the error accumulator holds `MISCONFIG_ENCODER_STEPPER_MISMATCH` on
return, and no `setCurrentAngle`, `setMeasuredAngle` or `setAngle` call is made
on the stepper of that slot.  The controller is any state in which steppers and
encoders are wired in pairs, which holds for the constructed controller and is
re-established by every `setup()`. -/
theorem setup_mismatch_fails (K : Constants) (cfg : Nat → ActuatorConfig) (env : SetupEnv)
    (c : Controller) (i : Nat) (hp : Paired c) (hi : i < K.MAX_ACTUATORS)
    (ht : (cfg i).actuatorType = ActuatorType.STEPPER_ENCODER_TYPE)
    (hne : (cfg i).stepperId ≠ (cfg i).encoderId) :
    ∃ c' tr, setup K cfg env c = some (false, c', tr) ∧
      ErrorCode.MISCONFIG_ENCODER_STEPPER_MISMATCH ∈ c'.errors ∧
      isError c' = true ∧
      (c'.actuators i).stepperDrive = some (steppersBefore cfg i) ∧
      (c'.actuators i).encoder = some (steppersBefore cfg i) ∧
      (∀ a, Call.setCurrentAngle (steppersBefore cfg i) a ∉ tr) ∧
      (∀ a t, Call.setMeasuredAngle (steppersBefore cfg i) a t ∉ tr) ∧
      (∀ a d, Call.stepperSetAngle (steppersBefore cfg i) a d ∉ tr) ∧
      Paired c' := by
  obtain ⟨c', tr, hset, _, _, _, w4, w5, w6, _, _, _, hseed, honly⟩ := setup_spec K cfg env c
  obtain ⟨a1, a2, a3⟩ := w4 i hi ht
  have hst : (c'.actuators i).stepperDrive = some (steppersBefore cfg i) := by
    rw [a1]; rfl
  have hen : (c'.actuators i).encoder = some (steppersBefore cfg i) := by
    rw [a1]; rfl
  have hids : (c'.encoders (steppersBefore cfg i)).id ≠ (c'.steppers (steppersBefore cfg i)).id := by
    rw [a2, a3]
    exact fun h => hne h.symm
  have hmem := (hseed i _ _ hi hen hst).1 hids
  have herr := isError_of_mem c' _ hmem
  have hpair : Paired c' :=
    paired_of_wiring K cfg c c' hp (fun j hj htj => (w4 j hj htj).1) w5 w6
  have hno : ∀ call ∈ tr, call.isSeed = true →
      call.seedTarget ≠ some (steppersBefore cfg i) := by
    intro call hc hs htarget
    obtain ⟨j, e, st, _, q1, q2, q3, q4⟩ := honly call hc hs
    rw [htarget] at q4
    simp only [Option.some.injEq] at q4
    subst q4
    have := hpair j _ e q2 q1
    subst this
    exact hids q3
  refine ⟨c', tr, by rw [hset, herr]; rfl, hmem, herr, hst, hen, ?_, ?_, ?_, hpair⟩
  · intro a hc
    exact hno _ hc rfl rfl
  · intro a t hc
    exact hno _ hc rfl rfl
  · intro a d hc
    exact hno _ hc rfl rfl

/-- C3 (witness). The theorem at the configuration whose slot 1 pairs stepper
identifier 1 with encoder identifier 2, on healthy hardware, from the
constructed controller. -/
theorem setup_mismatch_fails_witness :
    Paired Controller.fresh ∧ 1 < sampleConstants.MAX_ACTUATORS ∧
    (mismatchConfig 1).actuatorType = ActuatorType.STEPPER_ENCODER_TYPE ∧
    (mismatchConfig 1).stepperId ≠ (mismatchConfig 1).encoderId ∧
    ∃ c' tr, setup sampleConstants mismatchConfig healthyEnv Controller.fresh =
        some (false, c', tr) ∧
      ErrorCode.MISCONFIG_ENCODER_STEPPER_MISMATCH ∈ c'.errors ∧
      isError c' = true ∧
      (c'.actuators 1).stepperDrive = some (steppersBefore mismatchConfig 1) ∧
      (c'.actuators 1).encoder = some (steppersBefore mismatchConfig 1) ∧
      (∀ a, Call.setCurrentAngle (steppersBefore mismatchConfig 1) a ∉ tr) ∧
      (∀ a t, Call.setMeasuredAngle (steppersBefore mismatchConfig 1) a t ∉ tr) ∧
      (∀ a d, Call.stepperSetAngle (steppersBefore mismatchConfig 1) a d ∉ tr) ∧
      Paired c' :=
  ⟨paired_fresh, by decide, by decide, by decide,
    setup_mismatch_fails sampleConstants mismatchConfig healthyEnv Controller.fresh 1
      paired_fresh (by decide) (by decide) (by decide)⟩

/-- C4 (counterexample). With the encoder of slot 0 failing its variance check
and the encoder of slot 1 passing it, slot 1 of `mismatchConfig` is a
`STEPPER_ENCODER_TYPE` slot whose encoder is ok, and `setup()` makes no seeding
call on its stepper: its stepper and encoder identifiers differ. -/
theorem setup_ok_encoder_not_seeded :
    (setup sampleConstants mismatchConfig encoderZeroBadEnv Controller.fresh).map
      (fun r => (r.1, (r.2.1.actuators 1).encoder, (r.2.1.encoders 0).ok,
        (r.2.1.encoders 1).ok, r.2.2.filter (fun call => decide (call.seedTarget = some 1)))) =
    some (false, some 1, false, true, []) := by
  decide

/-- C4 (amended). When the encoder at index `e` reports not ok after its
variance check, `setup()` still checks every encoder and wires every slot:
`numberOfActuators` is `MAX_ACTUATORS` on return, every other
`STEPPER_ENCODER_TYPE` slot whose encoder is ok and whose stepper and encoder
identifiers agree is seeded (`setCurrentAngle`, `setMeasuredAngle` and
`setAngle` with duration 1, all with the encoder's angle), and `setup()`
returns `false` with `ENCODER_CHECK_FAILED` in the error accumulator. -/
theorem setup_variance_failure (K : Constants) (cfg : Nat → ActuatorConfig) (env : SetupEnv)
    (c : Controller) (e : Nat) (he : e < steppersBefore cfg K.MAX_ACTUATORS)
    (hbad : env.encoderOk e = false) :
    ∃ c' tr, setup K cfg env c = some (false, c', tr) ∧
      isError c' = true ∧
      ErrorCode.ENCODER_CHECK_FAILED ∈ c'.errors ∧
      c'.numberOfActuators = K.MAX_ACTUATORS ∧
      c'.numberOfEncoders = steppersBefore cfg K.MAX_ACTUATORS ∧
      (c'.encoders e).ok = false ∧
      (∀ e2, e2 < c'.numberOfEncoders → Call.checkEncoderVariance e2 ∈ tr) ∧
      (∀ j, j < K.MAX_ACTUATORS →
        (cfg j).actuatorType = ActuatorType.STEPPER_ENCODER_TYPE →
        steppersBefore cfg j ≠ e →
        env.encoderOk (steppersBefore cfg j) = true →
        (cfg j).stepperId = (cfg j).encoderId →
        (c'.actuators j).stepperDrive = some (steppersBefore cfg j) ∧
        (c'.actuators j).encoder = some (steppersBefore cfg j) ∧
        (c'.encoders (steppersBefore cfg j)).ok = true ∧
        [Call.setCurrentAngle (steppersBefore cfg j) (env.encoderAngle (steppersBefore cfg j)),
          Call.setMeasuredAngle (steppersBefore cfg j)
            (env.encoderAngle (steppersBefore cfg j)) (env.millis j),
          Call.stepperSetAngle (steppersBefore cfg j)
            (env.encoderAngle (steppersBefore cfg j)) 1] <:+: tr) := by
  obtain ⟨c', tr, hset, _, hn, hne, w4, _, _, hok, hchk, hvar, hseed, _⟩ :=
    setup_spec K cfg env c
  have hmem := hchk e he hbad
  have herr := isError_of_mem c' _ hmem
  refine ⟨c', tr, by rw [hset, herr]; rfl, herr, hmem, hn, hne, ?_, ?_, ?_⟩
  · rw [(hok e he).1, hbad]
  · intro e2 he2
    exact hvar e2 (by rw [← hne]; exact he2)
  · intro j hj htj _ hokj hids
    obtain ⟨a1, a2, a3⟩ := w4 j hj htj
    have hlt : steppersBefore cfg j < steppersBefore cfg K.MAX_ACTUATORS :=
      steppersBefore_lt cfg hj htj
    have hst : (c'.actuators j).stepperDrive = some (steppersBefore cfg j) := by
      rw [a1]; rfl
    have hen : (c'.actuators j).encoder = some (steppersBefore cfg j) := by
      rw [a1]; rfl
    obtain ⟨o1, o2⟩ := hok _ hlt
    have hokc : (c'.encoders (steppersBefore cfg j)).ok = true := by rw [o1, hokj]
    have := (hseed j _ _ hj hen hst).2 (by rw [a2, a3, hids]) hokc
    rw [o2] at this
    exact ⟨hst, hen, hokc, this⟩

/-- C4 (witness). The amended statement at `armConfig` with encoder 0 failing
its variance check. -/
theorem setup_variance_failure_witness :
    0 < steppersBefore armConfig sampleConstants.MAX_ACTUATORS ∧
    encoderZeroBadEnv.encoderOk 0 = false ∧
    ∃ c' tr, setup sampleConstants armConfig encoderZeroBadEnv Controller.fresh =
        some (false, c', tr) ∧
      isError c' = true ∧
      ErrorCode.ENCODER_CHECK_FAILED ∈ c'.errors ∧
      c'.numberOfActuators = sampleConstants.MAX_ACTUATORS ∧
      c'.numberOfEncoders = steppersBefore armConfig sampleConstants.MAX_ACTUATORS ∧
      (c'.encoders 0).ok = false ∧
      (∀ e2, e2 < c'.numberOfEncoders → Call.checkEncoderVariance e2 ∈ tr) ∧
      (∀ j, j < sampleConstants.MAX_ACTUATORS →
        (armConfig j).actuatorType = ActuatorType.STEPPER_ENCODER_TYPE →
        steppersBefore armConfig j ≠ 0 →
        encoderZeroBadEnv.encoderOk (steppersBefore armConfig j) = true →
        (armConfig j).stepperId = (armConfig j).encoderId →
        (c'.actuators j).stepperDrive = some (steppersBefore armConfig j) ∧
        (c'.actuators j).encoder = some (steppersBefore armConfig j) ∧
        (c'.encoders (steppersBefore armConfig j)).ok = true ∧
        [Call.setCurrentAngle (steppersBefore armConfig j)
            (encoderZeroBadEnv.encoderAngle (steppersBefore armConfig j)),
          Call.setMeasuredAngle (steppersBefore armConfig j)
            (encoderZeroBadEnv.encoderAngle (steppersBefore armConfig j))
            (encoderZeroBadEnv.millis j),
          Call.stepperSetAngle (steppersBefore armConfig j)
            (encoderZeroBadEnv.encoderAngle (steppersBefore armConfig j)) 1] <:+: tr) :=
  ⟨by decide, by decide,
    setup_variance_failure sampleConstants armConfig encoderZeroBadEnv Controller.fresh 0
      (by decide) (by decide)⟩

end Walter
